import Mathlib

/-!
Verification of the lite-2d physics engine: a shallow embedding of the
engine's data model and algorithms (Vector2, Transform, PhysicsMaterial,
RigidBody, colliders, narrow-phase collision detection, the impulse
resolver, raycasting and the fixed-timestep manager loop), together with
theorems settling the specification's claims about them.  JavaScript
numbers are modelled as real numbers; `Math.sqrt` is `Real.sqrt`.
-/

namespace Lite2D

noncomputable section

/-! ## Vector2 (src/utils/Vector2.ts) -/

/-- 2D vector; mirrors the Vector2 class.  The source constructor defaults
both components to 0 when arguments are missing. -/
structure Vector2 where
  x : ℝ
  y : ℝ

namespace Vector2

def add (v w : Vector2) : Vector2 := ⟨v.x + w.x, v.y + w.y⟩

def subtract (v w : Vector2) : Vector2 := ⟨v.x - w.x, v.y - w.y⟩

def multiply (v : Vector2) (scalar : ℝ) : Vector2 := ⟨v.x * scalar, v.y * scalar⟩

def divide (v : Vector2) (scalar : ℝ) : Vector2 := ⟨v.x / scalar, v.y / scalar⟩

def lengthSquared (v : Vector2) : ℝ := v.x * v.x + v.y * v.y

def length (v : Vector2) : ℝ := Real.sqrt (v.x * v.x + v.y * v.y)

/-- normalize(): returns (0,0) when the length is exactly 0. -/
def normalize (v : Vector2) : Vector2 :=
  if v.length = 0 then ⟨0, 0⟩ else v.divide v.length

def dot (v w : Vector2) : ℝ := v.x * w.x + v.y * w.y

def zero : Vector2 := ⟨0, 0⟩

end Vector2

/-! ## Transform (src/core/Transform.ts), for a parentless game object -/

/-- The position/rotation part of a Transform.  Physics only reads and
writes position and rotation; for a root transform `getWorldPosition()`
returns the local position. -/
structure Transform where
  position : Vector2
  rotation : ℝ

namespace Transform

def translate (t : Transform) (delta : Vector2) : Transform :=
  { t with position := t.position.add delta }

def rotate (t : Transform) (deltaRadians : ℝ) : Transform :=
  { t with rotation := t.rotation + deltaRadians }

def setPosition (t : Transform) (value : Vector2) : Transform :=
  { t with position := value }

end Transform

/-! ## PhysicsConstants (src/physics/PhysicsTypes.ts) -/

/-- The PhysicsConstants configuration object, as a record so that runs
under different configurations can be compared. -/
structure PhysicsConsts where
  gravity : Vector2
  fixedTimestep : ℝ
  maxVelocity : ℝ
  sleepThreshold : ℝ
  sleepTime : ℝ
  correctionPercent : ℝ
  correctionSlop : ℝ
  positionIterations : ℕ
  velocityIterations : ℕ

/-- The values of PhysicsConstants in the source. -/
def defaultConsts : PhysicsConsts :=
  { gravity := ⟨0, 980⟩
    fixedTimestep := 1 / 60
    maxVelocity := 5000
    sleepThreshold := 0.5
    sleepTime := 0.5
    correctionPercent := 0.4
    correctionSlop := 0.05
    positionIterations := 4
    velocityIterations := 6 }

/-! ## PhysicsMaterial (src/physics/PhysicsMaterial.ts) -/

structure PhysicsMaterial where
  friction : ℝ
  restitution : ℝ
  density : ℝ

namespace PhysicsMaterial

/-- The constructor: it stores all three arguments directly, without
clamping. -/
def create (friction restitution density : ℝ) : PhysicsMaterial :=
  ⟨friction, restitution, density⟩

/-- The friction setter: clamps into [0,1]. -/
def setFriction (m : PhysicsMaterial) (value : ℝ) : PhysicsMaterial :=
  { m with friction := max 0 (min 1 value) }

/-- The restitution setter: clamps into [0,1]. -/
def setRestitution (m : PhysicsMaterial) (value : ℝ) : PhysicsMaterial :=
  { m with restitution := max 0 (min 1 value) }

/-- The density setter: clamps to at least 0.001. -/
def setDensity (m : PhysicsMaterial) (value : ℝ) : PhysicsMaterial :=
  { m with density := max 0.001 value }

/-- PhysicsMaterial.default. -/
def defaultMat : PhysicsMaterial := create 0.4 0.2 1.0

end PhysicsMaterial

/-! ## RigidBody (src/physics/RigidBody.ts) -/

inductive BodyType where
  | STATIC
  | KINEMATIC
  | DYNAMIC
deriving DecidableEq

/-- RigidBody component state.  `gameObject` is the id of the owning game
object (None when detached); `enabled` is the Component enabled flag. -/
structure RigidBody where
  enabled : Bool
  bodyType : BodyType
  mass : ℝ
  velocity : Vector2
  angularVelocity : ℝ
  acceleration : Vector2
  force : Vector2
  torque : ℝ
  useGravity : Bool
  drag : ℝ
  angularDrag : ℝ
  gravityScale : ℝ
  isSleeping : Bool
  sleepTimer : ℝ
  gameObject : Option ℕ

namespace RigidBody

/-- inverseMass getter: 0 for Static, else 1/mass. -/
def inverseMass (b : RigidBody) : ℝ :=
  if b.bodyType = BodyType.STATIC then 0 else 1 / b.mass

/-- The velocity property setter: stores the value and wakes the body when
the value's squared length exceeds 0.01. -/
def setVelocityProp (b : RigidBody) (value : Vector2) : RigidBody :=
  let b1 := { b with velocity := value }
  if value.lengthSquared > 0.01 then { b1 with isSleeping := false, sleepTimer := 0 } else b1

/-- updateSleep(deltaTime): accumulates the sleep timer while both speeds
stay below the threshold; on expiry sleeps the body and zeroes both
velocities. -/
def updateSleep (c : PhysicsConsts) (deltaTime : ℝ) (b : RigidBody) : RigidBody :=
  let speed := b.velocity.length
  let angularSpeed := |b.angularVelocity|
  if speed < c.sleepThreshold ∧ angularSpeed < c.sleepThreshold then
    let timer := b.sleepTimer + deltaTime
    if timer ≥ c.sleepTime then
      { b with sleepTimer := timer, isSleeping := true,
               velocity := Vector2.zero, angularVelocity := 0 }
    else
      { b with sleepTimer := timer }
  else
    { b with sleepTimer := 0 }

/-- fixedUpdate(deltaTime): the integrator.  Acts on the body and the
owning game object's transform; returns both unchanged unless the body is
Dynamic, awake and owned. -/
def fixedUpdate (c : PhysicsConsts) (deltaTime : ℝ) (b : RigidBody) (t : Transform) :
    RigidBody × Transform :=
  if b.bodyType ≠ BodyType.DYNAMIC then (b, t)
  else if b.isSleeping then (b, t)
  else match b.gameObject with
  | none => (b, t)
  | some _ =>
    let force1 := if b.useGravity
      then b.force.add ((c.gravity.multiply b.gravityScale).multiply b.mass)
      else b.force
    let accel := force1.multiply b.inverseMass
    let v1 := b.velocity.add (accel.multiply deltaTime)
    let dragFactor := max 0 (1 - b.drag * deltaTime * 10)
    let v2 := v1.multiply dragFactor
    let v3 := if v2.lengthSquared > c.maxVelocity * c.maxVelocity
      then v2.normalize.multiply c.maxVelocity
      else v2
    let t1 := t.translate (v3.multiply deltaTime)
    let angularDragFactor := max 0 (1 - b.angularDrag * deltaTime * 10)
    let w1 := b.angularVelocity * angularDragFactor
    let t2 := t1.rotate (w1 * deltaTime)
    let b1 := { b with acceleration := accel, velocity := v3, angularVelocity := w1,
                       force := Vector2.zero, torque := 0 }
    (updateSleep c deltaTime b1, t2)

end RigidBody

/-! ## The integration steps as the specification words them (for the
refinement claim about the integrator).  Each definition follows one
clause of the claim, acting on a body/transform pair. -/

namespace IntegratorSpec

/-- Step 1 of the claim: the gravity vector times gravityScale times mass
is accumulated into the force accumulator, when gravity is enabled. -/
def gravityStep (c : PhysicsConsts) (s : RigidBody × Transform) : RigidBody × Transform :=
  if s.1.useGravity
  then ({ s.1 with force := s.1.force.add ((c.gravity.multiply s.1.gravityScale).multiply s.1.mass) }, s.2)
  else s

/-- Step 2: acceleration = force times inverseMass. -/
def accelStep (s : RigidBody × Transform) : RigidBody × Transform :=
  ({ s.1 with acceleration := s.1.force.multiply s.1.inverseMass }, s.2)

/-- Step 3: velocity += acceleration times dt. -/
def velocityStep (dt : ℝ) (s : RigidBody × Transform) : RigidBody × Transform :=
  ({ s.1 with velocity := s.1.velocity.add (s.1.acceleration.multiply dt) }, s.2)

/-- Step 4: velocity is multiplied by max(0, 1 - drag*dt*10). -/
def dragStep (dt : ℝ) (s : RigidBody × Transform) : RigidBody × Transform :=
  ({ s.1 with velocity := s.1.velocity.multiply (max 0 (1 - s.1.drag * dt * 10)) }, s.2)

/-- Step 5: speed is clamped to the global maximum. -/
def clampStep (c : PhysicsConsts) (s : RigidBody × Transform) : RigidBody × Transform :=
  if s.1.velocity.length > c.maxVelocity
  then ({ s.1 with velocity := s.1.velocity.normalize.multiply c.maxVelocity }, s.2)
  else s

/-- Step 6: the transform is translated by velocity times dt. -/
def translateStep (dt : ℝ) (s : RigidBody × Transform) : RigidBody × Transform :=
  (s.1, s.2.translate (s.1.velocity.multiply dt))

/-- Step 7: angular velocity is multiplied by max(0, 1 - angularDrag*dt*10)
and the transform rotated by angularVelocity times dt. -/
def angularStep (dt : ℝ) (s : RigidBody × Transform) : RigidBody × Transform :=
  let w1 := s.1.angularVelocity * max 0 (1 - s.1.angularDrag * dt * 10)
  ({ s.1 with angularVelocity := w1 }, s.2.rotate (w1 * dt))

/-- Step 8: the force and torque accumulators are reset to zero. -/
def resetStep (s : RigidBody × Transform) : RigidBody × Transform :=
  ({ s.1 with force := Vector2.zero, torque := 0 }, s.2)

/-- The claim's steps, performed in the claim's order. -/
def integrate (c : PhysicsConsts) (dt : ℝ) (s : RigidBody × Transform) :
    RigidBody × Transform :=
  resetStep (angularStep dt (translateStep dt (clampStep c
    (dragStep dt (velocityStep dt (accelStep (gravityStep c s)))))))

end IntegratorSpec

/-! ## Colliders (src/physics/colliders/) -/

/-- AABB: min/max corners. -/
structure AABB where
  min : Vector2
  max : Vector2

/-- The two collider shapes: BoxCollider carries its size, CircleCollider
its radius. -/
inductive ColliderShape where
  | box (size : Vector2)
  | circle (radius : ℝ)

/-- Collider state shared by both shapes: trigger flag, material, offset,
cached bounds, the contact-id sets and the unique id.  `gameObject` is the
id of the owning game object. -/
structure Collider where
  id : ℕ
  enabled : Bool
  isTrigger : Bool
  material : PhysicsMaterial
  offset : Vector2
  shape : ColliderShape
  bounds : Option AABB
  currentCollisions : Finset ℕ
  previousCollisions : Finset ℕ
  gameObject : Option ℕ

/-- Transforms of the scene, one per game object id. -/
def TransformMap : Type := ℕ → Transform

def setTransform (tf : TransformMap) (g : ℕ) (t : Transform) : TransformMap :=
  fun i => if i = g then t else tf i

namespace Collider

/-- getWorldPosition(): transform world position plus offset; offset alone
when no game object owns the collider. -/
def getWorldPosition (tf : TransformMap) (col : Collider) : Vector2 :=
  match col.gameObject with
  | none => col.offset
  | some g => (tf g).position.add col.offset

/-- computeBounds() of BoxCollider and CircleCollider. -/
def computeBounds (tf : TransformMap) (col : Collider) : AABB :=
  let worldPos := getWorldPosition tf col
  match col.shape with
  | ColliderShape.box size =>
    let halfSize := size.multiply 0.5
    ⟨⟨worldPos.x - halfSize.x, worldPos.y - halfSize.y⟩,
     ⟨worldPos.x + halfSize.x, worldPos.y + halfSize.y⟩⟩
  | ColliderShape.circle radius =>
    ⟨⟨worldPos.x - radius, worldPos.y - radius⟩,
     ⟨worldPos.x + radius, worldPos.y + radius⟩⟩

/-- updateBounds(): refresh the cache. -/
def updateBounds (tf : TransformMap) (col : Collider) : Collider :=
  { col with bounds := some (computeBounds tf col) }

/-- getBounds(): the cached bounds, computed fresh when the cache is
empty. -/
def getBounds (tf : TransformMap) (col : Collider) : AABB :=
  match col.bounds with
  | some b => b
  | none => computeBounds tf col

/-- updateCollisionState(): snapshot current contacts into previous and
clear current. -/
def updateCollisionState (col : Collider) : Collider :=
  { col with previousCollisions := col.currentCollisions, currentCollisions := ∅ }

/-- addCollision(other): record the other collider's id. -/
def addCollision (col : Collider) (otherId : ℕ) : Collider :=
  { col with currentCollisions := insert otherId col.currentCollisions }

def isCollisionEnter (col : Collider) (other : Collider) : Prop :=
  other.id ∈ col.currentCollisions ∧ other.id ∉ col.previousCollisions

def isCollisionStay (col : Collider) (other : Collider) : Prop :=
  other.id ∈ col.currentCollisions ∧ other.id ∈ col.previousCollisions

def isCollisionExit (col : Collider) (other : Collider) : Prop :=
  other.id ∉ col.currentCollisions ∧ other.id ∈ col.previousCollisions

instance (col other : Collider) : Decidable (isCollisionEnter col other) :=
  instDecidableAnd

instance (col other : Collider) : Decidable (isCollisionStay col other) :=
  instDecidableAnd

instance (col other : Collider) : Decidable (isCollisionExit col other) :=
  instDecidableAnd

/-- The circle-radius clamp invariant established by the CircleCollider
radius setter and the default value 25: every circle collider's radius is
nonnegative (box colliders are unconstrained). -/
def radiusNonneg (col : Collider) : Prop :=
  ∀ r, col.shape = ColliderShape.circle r → 0 ≤ r

end Collider

/-! ## Collision manifolds (src/physics/collision/CollisionInfo.ts) -/

structure ContactPoint where
  point : Vector2
  normal : Vector2
  penetration : ℝ

/-- CollisionInfo holds the two colliders (the values referenced at
detection time), the contact list, the normal (A to B) and the
penetration depth. -/
structure CollisionInfo where
  colliderA : Collider
  colliderB : Collider
  contacts : List ContactPoint
  normal : Vector2
  penetration : ℝ

/-- swapColliders(): exchange A and B and negate the normal. -/
def CollisionInfo.swapColliders (info : CollisionInfo) : CollisionInfo :=
  { info with colliderA := info.colliderB, colliderB := info.colliderA,
              normal := info.normal.multiply (-1) }

/-! ## Narrow-phase detection (src/physics/collision/CollisionDetection.ts) -/

namespace CollisionDetection

/-- testAABB: the Box/Box test.  The contact point transcribes the source
faithfully: the source builds it as
`new Vector2(max(minAx, minBx) + min(maxAx, maxBx)).multiply(0.5)`,
passing a single constructor argument, so the y component defaults to 0
before the scaling by 0.5. -/
def testAABB (tf : TransformMap) (a b : Collider) : Option CollisionInfo :=
  let boundsA := a.getBounds tf
  let boundsB := b.getBounds tf
  if boundsA.max.x < boundsB.min.x ∨ boundsA.min.x > boundsB.max.x ∨
     boundsA.max.y < boundsB.min.y ∨ boundsA.min.y > boundsB.max.y then
    none
  else
    let overlapX1 := boundsA.max.x - boundsB.min.x
    let overlapX2 := boundsB.max.x - boundsA.min.x
    let overlapY1 := boundsA.max.y - boundsB.min.y
    let overlapY2 := boundsB.max.y - boundsA.min.y
    let overlapX := min overlapX1 overlapX2
    let overlapY := min overlapY1 overlapY2
    let pointVal : Vector2 :=
      (Vector2.mk (max boundsA.min.x boundsB.min.x + min boundsA.max.x boundsB.max.x) 0).multiply 0.5
    if overlapX < overlapY then
      let normal : Vector2 := if overlapX1 < overlapX2 then ⟨1, 0⟩ else ⟨-1, 0⟩
      some ⟨a, b, [⟨pointVal, normal, overlapX⟩], normal, overlapX⟩
    else
      let normal : Vector2 := if overlapY1 < overlapY2 then ⟨0, 1⟩ else ⟨0, -1⟩
      some ⟨a, b, [⟨pointVal, normal, overlapY⟩], normal, overlapY⟩

/-- testCircleCircle: the Circle/Circle test. -/
def testCircleCircle (tf : TransformMap) (a b : Collider) (radiusA radiusB : ℝ) :
    Option CollisionInfo :=
  let posA := a.getWorldPosition tf
  let posB := b.getWorldPosition tf
  let delta := posB.subtract posA
  let distanceSquared := delta.lengthSquared
  let radiusSum := radiusA + radiusB
  if distanceSquared ≥ radiusSum * radiusSum then
    none
  else
    let distance := Real.sqrt distanceSquared
    let penetration := radiusSum - distance
    let normal : Vector2 := if distance > 0.0001 then delta.normalize else ⟨1, 0⟩
    let contactPos := posA.add (normal.multiply radiusA)
    some ⟨a, b, [⟨contactPos, normal, penetration⟩], normal, penetration⟩

/-- testAABBCircle: the Box/Circle closest-point test, with the
edge-distance fallback when the circle center lies in the box. -/
def testAABBCircle (tf : TransformMap) (box circle : Collider) (radius : ℝ) :
    Option CollisionInfo :=
  let boxBounds := box.getBounds tf
  let circlePos := circle.getWorldPosition tf
  let closestX := max boxBounds.min.x (min circlePos.x boxBounds.max.x)
  let closestY := max boxBounds.min.y (min circlePos.y boxBounds.max.y)
  let closest : Vector2 := ⟨closestX, closestY⟩
  let delta := circlePos.subtract closest
  let distanceSquared := delta.lengthSquared
  if distanceSquared ≥ radius * radius then
    none
  else
    let distance := Real.sqrt distanceSquared
    let penetration := radius - distance
    let normal : Vector2 :=
      if distance > 0.0001 then delta.normalize
      else
        let distToLeft := circlePos.x - boxBounds.min.x
        let distToRight := boxBounds.max.x - circlePos.x
        let distToTop := circlePos.y - boxBounds.min.y
        let distToBottom := boxBounds.max.y - circlePos.y
        let minDist := min (min (min distToLeft distToRight) distToTop) distToBottom
        if minDist = distToLeft then ⟨-1, 0⟩
        else if minDist = distToRight then ⟨1, 0⟩
        else if minDist = distToTop then ⟨0, -1⟩
        else ⟨0, 1⟩
    some ⟨box, circle, [⟨closest, normal, penetration⟩], normal, penetration⟩

/-- detect: the shape-kind dispatcher.  Circle/Box delegates to Box/Circle
and swaps the resulting manifold.  With exactly two shape kinds every
combination is supported. -/
def detect (tf : TransformMap) (a b : Collider) : Option CollisionInfo :=
  match a.shape, b.shape with
  | ColliderShape.box _, ColliderShape.box _ => testAABB tf a b
  | ColliderShape.circle radiusA, ColliderShape.circle radiusB =>
    testCircleCircle tf a b radiusA radiusB
  | ColliderShape.box _, ColliderShape.circle radius => testAABBCircle tf a b radius
  | ColliderShape.circle radius, ColliderShape.box _ =>
    (testAABBCircle tf b a radius).map CollisionInfo.swapColliders

end CollisionDetection

/-! ## Raycasting (src/physics/collision/Raycast.ts) -/

structure RaycastHit where
  collider : Collider
  point : Vector2
  normal : Vector2
  distance : ℝ

namespace Raycast

/-- The tail of the slab method shared by both axis branches: pick t,
reject t outside [0, maxDistance], build the hit point and its
epsilon-compared face normal. -/
def raycastAABBFinish (bounds : AABB) (origin direction : Vector2) (col : Collider)
    (maxDistance tmin tmax : ℝ) : Option RaycastHit :=
  let t := if tmin ≥ 0 then tmin else tmax
  if t < 0 ∨ t > maxDistance then none
  else
    let point := origin.add (direction.multiply t)
    let normal : Vector2 :=
      if |point.x - bounds.min.x| < 0.0001 then ⟨-1, 0⟩
      else if |point.x - bounds.max.x| < 0.0001 then ⟨1, 0⟩
      else if |point.y - bounds.min.y| < 0.0001 then ⟨0, -1⟩
      else ⟨0, 1⟩
    some ⟨col, point, normal, t⟩

/-- The y-axis slab interval step of raycastAABB. -/
def raycastAABBYAxis (bounds : AABB) (origin direction : Vector2) (col : Collider)
    (maxDistance tmin tmax : ℝ) : Option RaycastHit :=
  if |direction.y| < 0.0001 then
    if origin.y < bounds.min.y ∨ origin.y > bounds.max.y then none
    else raycastAABBFinish bounds origin direction col maxDistance tmin tmax
  else
    let invD := 1 / direction.y
    let t1 := (bounds.min.y - origin.y) * invD
    let t2 := (bounds.max.y - origin.y) * invD
    let tlo := min t1 t2
    let thi := max t1 t2
    let tmin1 := max tmin tlo
    let tmax1 := min tmax thi
    if tmin1 > tmax1 then none
    else raycastAABBFinish bounds origin direction col maxDistance tmin1 tmax1

/-- raycastAABB: the slab method, starting with the interval
[0, maxDistance] and intersecting it with the x and then y slab. -/
def raycastAABB (tf : TransformMap) (origin direction : Vector2) (col : Collider)
    (maxDistance : ℝ) : Option RaycastHit :=
  let bounds := col.getBounds tf
  if |direction.x| < 0.0001 then
    if origin.x < bounds.min.x ∨ origin.x > bounds.max.x then none
    else raycastAABBYAxis bounds origin direction col maxDistance 0 maxDistance
  else
    let invD := 1 / direction.x
    let t1 := (bounds.min.x - origin.x) * invD
    let t2 := (bounds.max.x - origin.x) * invD
    let tlo := min t1 t2
    let thi := max t1 t2
    let tmin1 := max 0 tlo
    let tmax1 := min maxDistance thi
    if tmin1 > tmax1 then none
    else raycastAABBYAxis bounds origin direction col maxDistance tmin1 tmax1

/-- raycastCircle: the ray/circle quadratic; the smaller root is kept
unless negative, the result is rejected outside [0, maxDistance]. -/
def raycastCircle (tf : TransformMap) (origin direction : Vector2) (col : Collider)
    (radius maxDistance : ℝ) : Option RaycastHit :=
  let center := col.getWorldPosition tf
  let oc := origin.subtract center
  let qa := direction.dot direction
  let qb := 2 * oc.dot direction
  let qc := oc.dot oc - radius * radius
  let discriminant := qb * qb - 4 * qa * qc
  if discriminant < 0 then none
  else
    let sqrtD := Real.sqrt discriminant
    let tFirst := (-qb - sqrtD) / (2 * qa)
    let t := if tFirst < 0 then (-qb + sqrtD) / (2 * qa) else tFirst
    if t < 0 ∨ t > maxDistance then none
    else
      let point := origin.add (direction.multiply t)
      let normal := (point.subtract center).normalize
      some ⟨col, point, normal, t⟩

/-- raycastCollider: dispatch on the collider's shape kind. -/
def raycastCollider (tf : TransformMap) (origin direction : Vector2) (col : Collider)
    (maxDistance : ℝ) : Option RaycastHit :=
  match col.shape with
  | ColliderShape.box _ => raycastAABB tf origin direction col maxDistance
  | ColliderShape.circle radius => raycastCircle tf origin direction col radius maxDistance

end Raycast

namespace PhysicsManager

/-- The loop body of PhysicsManager.raycast: the accumulator is the
closest hit so far paired with the closest distance, which starts at
maxDistance and shrinks to each accepted hit's distance. -/
def raycastLoop (tf : TransformMap) (origin dir : Vector2) (maxDistance : ℝ) :
    List Collider → Option RaycastHit × ℝ → Option RaycastHit × ℝ
  | [], acc => acc
  | col :: rest, acc =>
    raycastLoop tf origin dir maxDistance rest
      (if col.enabled then
        match Raycast.raycastCollider tf origin dir col maxDistance with
        | some hit => if hit.distance < acc.2 then (some hit, hit.distance) else acc
        | none => acc
      else acc)

/-- PhysicsManager.raycast: normalize the direction, scan every enabled
collider and keep only a hit strictly closer than the best so far. -/
def raycast (tf : TransformMap) (colliders : List Collider) (origin direction : Vector2)
    (maxDistance : ℝ) : Option RaycastHit :=
  let dir := direction.normalize
  (raycastLoop tf origin dir maxDistance colliders (none, maxDistance)).1

/-- A hit produced by some enabled collider of the list (the pool raycast
scans). -/
def HitOf (tf : TransformMap) (origin dir : Vector2) (maxDistance : ℝ)
    (colliders : List Collider) (h : RaycastHit) : Prop :=
  ∃ col ∈ colliders, col.enabled = true ∧
    Raycast.raycastCollider tf origin dir col maxDistance = some h

end PhysicsManager

/-! ## Simulation state: the registries and the scene transforms -/

/-- The mutable scene a physics sub-step acts on: the transform of every
game object, the registered bodies and the registered colliders. -/
structure SimState where
  transforms : TransformMap
  bodies : List RigidBody
  colliders : List Collider

/-- The current state of the collider object a manifold references.  A
manifold stores the collider value seen at detection time; the live object
is the registered collider with that id (the manifold's snapshot when the
id is gone, which cannot happen inside a step). -/
def liveCollider (s : SimState) (col : Collider) : Collider :=
  (s.colliders.find? (fun c2 => c2.id == col.id)).getD col

/-- gameObject.getComponent(RigidBody): the first registered body attached
to the game object. -/
def findBody (bodies : List RigidBody) (g : ℕ) : Option RigidBody :=
  bodies.find? (fun b => b.gameObject == some g)

/-- Write back a mutation of the body getComponent resolved: replace the
first registered body attached to the game object. -/
def updateBody (g : ℕ) (f : RigidBody → RigidBody) : List RigidBody → List RigidBody
  | [] => []
  | b :: rest =>
    if b.gameObject == some g then f b :: rest else b :: updateBody g f rest

/-- Store the two (possibly) mutated bodies of a resolver step back into
the registry, keyed by their owning game objects. -/
def writeBodies (s : SimState) (ga gb : ℕ) (bodyA bodyB : RigidBody) : SimState :=
  { s with bodies := updateBody gb (fun _ => bodyB) (updateBody ga (fun _ => bodyA) s.bodies) }

/-! ## CollisionResolver (src/physics/collision/CollisionResolver.ts) -/

namespace CollisionResolver

/-- resolvePositionalCorrection: Baumgarte positional correction.  Moves
each Dynamic body's transform along the normal, scaled by its share of the
total inverse mass. -/
def resolvePositionalCorrection (c : PhysicsConsts) (s : SimState) (info : CollisionInfo)
    (bodyA bodyB : RigidBody) : SimState :=
  let percent := c.correctionPercent
  let slop := c.correctionSlop
  let correctionDepth := max (info.penetration - slop) 0
  if correctionDepth ≤ 0 then s
  else
    let totalInverseMass := bodyA.inverseMass + bodyB.inverseMass
    if totalInverseMass = 0 then s
    else
      let correction := info.normal.multiply ((correctionDepth / totalInverseMass) * percent)
      let s1 :=
        if bodyA.bodyType = BodyType.DYNAMIC then
          match bodyA.gameObject with
          | some ga =>
            let posA := (s.transforms ga).position
            let tA := (s.transforms ga).setPosition (posA.subtract (correction.multiply bodyA.inverseMass))
            { s with transforms := setTransform s.transforms ga tA }
          | none => s
        else s
      if bodyB.bodyType = BodyType.DYNAMIC then
        match bodyB.gameObject with
        | some gb =>
          let posB := (s1.transforms gb).position
          let tB := (s1.transforms gb).setPosition (posB.add (correction.multiply bodyB.inverseMass))
          { s1 with transforms := setTransform s1.transforms gb tB }
        | none => s1
      else s1

/-- resolveFriction: Coulomb friction along the contact tangent, clamped
by the normal impulse magnitude.  `bodyA`/`bodyB` are the live body values
after the normal impulse was applied. -/
def resolveFriction (s : SimState) (info : CollisionInfo)
    (bodyA bodyB : RigidBody) (normalImpulseMagnitude : ℝ) : SimState :=
  let relativeVel := bodyB.velocity.subtract bodyA.velocity
  let normalVel := info.normal.multiply (relativeVel.dot info.normal)
  let tangentVel := relativeVel.subtract normalVel
  if tangentVel.lengthSquared < 0.0001 then s
  else
    let tangent := tangentVel.normalize
    let friction := Real.sqrt (info.colliderA.material.friction * info.colliderB.material.friction)
    let totalInverseMass := bodyA.inverseMass + bodyB.inverseMass
    if totalInverseMass = 0 then s
    else
      let jt := -(relativeVel.dot tangent) / totalInverseMass
      let maxFriction := |normalImpulseMagnitude| * friction
      let frictionImpulseMagnitude := max (-maxFriction) (min jt maxFriction)
      let frictionImpulse := tangent.multiply frictionImpulseMagnitude
      let bodyA2 := if bodyA.bodyType = BodyType.DYNAMIC
        then bodyA.setVelocityProp (bodyA.velocity.subtract (frictionImpulse.multiply bodyA.inverseMass))
        else bodyA
      let bodyB2 := if bodyB.bodyType = BodyType.DYNAMIC
        then bodyB.setVelocityProp (bodyB.velocity.add (frictionImpulse.multiply bodyB.inverseMass))
        else bodyB
      match bodyA.gameObject, bodyB.gameObject with
      | some ga, some gb => writeBodies s ga gb bodyA2 bodyB2
      | _, _ => s

/-- resolveImpulse: the restitution impulse along the normal, skipped for
separating bodies, followed by friction. -/
def resolveImpulse (s : SimState) (info : CollisionInfo)
    (bodyA bodyB : RigidBody) : SimState :=
  let relativeVel := bodyB.velocity.subtract bodyA.velocity
  let velAlongNormal := relativeVel.dot info.normal
  if velAlongNormal > 0 then s
  else
    let e := min info.colliderA.material.restitution info.colliderB.material.restitution
    let totalInverseMass := bodyA.inverseMass + bodyB.inverseMass
    if totalInverseMass = 0 then s
    else
      let j := -(1 + e) * velAlongNormal / totalInverseMass
      let impulse := info.normal.multiply j
      let bodyA2 := if bodyA.bodyType = BodyType.DYNAMIC
        then bodyA.setVelocityProp (bodyA.velocity.subtract (impulse.multiply bodyA.inverseMass))
        else bodyA
      let bodyB2 := if bodyB.bodyType = BodyType.DYNAMIC
        then bodyB.setVelocityProp (bodyB.velocity.add (impulse.multiply bodyB.inverseMass))
        else bodyB
      let s1 := match bodyA.gameObject, bodyB.gameObject with
        | some ga, some gb => writeBodies s ga gb bodyA2 bodyB2
        | _, _ => s
      resolveFriction s1 info bodyA2 bodyB2 j

/-- resolve: find both bodies through the colliders' game objects; skip
when one is missing or both are Static; otherwise positional correction
followed by the impulse pass. -/
def resolve (c : PhysicsConsts) (s : SimState) (info : CollisionInfo) : SimState :=
  match info.colliderA.gameObject, info.colliderB.gameObject with
  | some ga, some gb =>
    match findBody s.bodies ga, findBody s.bodies gb with
    | some bodyA, some bodyB =>
      if bodyA.bodyType = BodyType.STATIC ∧ bodyB.bodyType = BodyType.STATIC then s
      else
        let s1 := resolvePositionalCorrection c s info bodyA bodyB
        resolveImpulse s1 info bodyA bodyB
    | _, _ => s
  | _, _ => s

/-- resolvePositionOnly: as resolve, but only the positional correction
(the position-solver iterations use it). -/
def resolvePositionOnly (c : PhysicsConsts) (s : SimState) (info : CollisionInfo) : SimState :=
  match info.colliderA.gameObject, info.colliderB.gameObject with
  | some ga, some gb =>
    match findBody s.bodies ga, findBody s.bodies gb with
    | some bodyA, some bodyB =>
      if bodyA.bodyType = BodyType.STATIC ∧ bodyB.bodyType = BodyType.STATIC then s
      else resolvePositionalCorrection c s info bodyA bodyB
    | _, _ => s
  | _, _ => s

end CollisionResolver

/-! ## The physics sub-step pipeline (PhysicsManager.fixedUpdate) -/

/-- An unordered pair key: the smaller collider id first. -/
def pairKey (a b : Collider) : ℕ × ℕ :=
  if a.id < b.id then (a.id, b.id) else (b.id, a.id)

/-- The dispatched collision/trigger callbacks, recorded as an event
trace.  The target is the receiving game object's id; the payload of a
collision event carries the other collider's id, the first contact, the
normal as seen from the receiver and the penetration. -/
structure CollisionEventData where
  other : ℕ
  contact : ContactPoint
  normal : Vector2
  penetration : ℝ

inductive PhysicsEvent where
  | collisionEnter (target : ℕ) (data : CollisionEventData)
  | collisionStay (target : ℕ) (data : CollisionEventData)
  | collisionExit (target : ℕ) (otherCollider : ℕ)
  | triggerEnter (target : ℕ) (otherCollider : ℕ)
  | triggerStay (target : ℕ) (otherCollider : ℕ)
  | triggerExit (target : ℕ) (otherCollider : ℕ)

/-- The trigger enter/stay/exit events among the six callback kinds. -/
def PhysicsEvent.isTriggerEvent : PhysicsEvent → Prop
  | PhysicsEvent.triggerEnter _ _ => True
  | PhysicsEvent.triggerStay _ _ => True
  | PhysicsEvent.triggerExit _ _ => True
  | _ => False

namespace PhysicsManager

/-- Phase 1: integrate every enabled, Dynamic, awake body, writing the
displacement into the owning game object's transform. -/
def integratePhase (c : PhysicsConsts) (dt : ℝ) (s : SimState) : SimState :=
  let folded := s.bodies.foldl
    (fun (acc : TransformMap × List RigidBody) b =>
      if b.enabled ∧ b.bodyType = BodyType.DYNAMIC ∧ ¬ b.isSleeping then
        match b.gameObject with
        | some g =>
          let r := RigidBody.fixedUpdate c dt b (acc.1 g)
          (setTransform acc.1 g r.2, acc.2 ++ [r.1])
        | none =>
          let r := RigidBody.fixedUpdate c dt b (Transform.mk Vector2.zero 0)
          (acc.1, acc.2 ++ [r.1])
      else (acc.1, acc.2 ++ [b]))
    (s.transforms, [])
  { s with transforms := folded.1, bodies := folded.2 }

/-- Phase 2: recompute the cached bounds of every enabled collider. -/
def boundsPhase (s : SimState) : SimState :=
  let cols := s.colliders.map (fun col => if col.enabled then col.updateBounds s.transforms else col)
  { s with colliders := cols }

/-- Phase 3: snapshot and clear the contact sets of every enabled
collider. -/
def contactSnapshotPhase (s : SimState) : SimState :=
  let cols := s.colliders.map (fun col => if col.enabled then col.updateCollisionState else col)
  { s with colliders := cols }

/-- All index-ordered pairs of a list, in the order of the two nested
broad-phase loops. -/
def allPairs : List Collider → List (Collider × Collider)
  | [] => []
  | x :: rest => rest.map (fun y => (x, y)) ++ allPairs rest

/-- aabbOverlap, the broad-phase AABB filter. -/
def aabbOverlap (a b : AABB) : Prop :=
  ¬ (a.max.x < b.min.x ∨ a.min.x > b.max.x ∨ a.max.y < b.min.y ∨ a.min.y > b.max.y)

instance (a b : AABB) : Decidable (aabbOverlap a b) := instDecidableNot

/-- Record a detected contact on both colliders (addCollision on each). -/
def markCollision (s : SimState) (idA idB : ℕ) : SimState :=
  let cols := s.colliders.map (fun col =>
    if col.id = idA then col.addCollision idB
    else if col.id = idB then col.addCollision idA
    else col)
  { s with colliders := cols }

/-- Phases 4 and 5: all enabled-collider pairs, filtered by AABB overlap,
tested by the narrow phase; detected manifolds are keyed and collected in
iteration order and the contact sets updated. -/
def narrowPhase (s : SimState) : SimState × List ((ℕ × ℕ) × CollisionInfo) :=
  let colliderArray := s.colliders.filter (fun col => col.enabled)
  (allPairs colliderArray).foldl
    (fun (acc : SimState × List ((ℕ × ℕ) × CollisionInfo)) ab =>
      if aabbOverlap (ab.1.getBounds acc.1.transforms) (ab.2.getBounds acc.1.transforms) then
        match CollisionDetection.detect acc.1.transforms ab.1 ab.2 with
        | some info => (markCollision acc.1 ab.1.id ab.2.id, acc.2 ++ [(pairKey ab.1 ab.2, info)])
        | none => acc
      else acc)
    (s, [])

/-- One pair of the position-solver inner loop: skip trigger pairs,
re-detect on the live colliders, and apply position-only correction. -/
def positionSolverPair (c : PhysicsConsts) (s : SimState) (info : CollisionInfo) : SimState :=
  if ¬ info.colliderA.isTrigger ∧ ¬ info.colliderB.isTrigger then
    match CollisionDetection.detect s.transforms
        (liveCollider s info.colliderA) (liveCollider s info.colliderB) with
    | some updatedInfo => CollisionResolver.resolvePositionOnly c s updatedInfo
    | none => s
  else s

/-- One position-solver iteration: refresh bounds, then correct every
collision pair. -/
def positionSolverIteration (c : PhysicsConsts)
    (pairs : List ((ℕ × ℕ) × CollisionInfo)) (s : SimState) : SimState :=
  pairs.foldl (fun st kv => positionSolverPair c st kv.2) (boundsPhase s)

/-- Phase 6-1: the position solver, iterated POSITION_ITERATIONS times. -/
def positionSolverPhase (c : PhysicsConsts) (s : SimState)
    (pairs : List ((ℕ × ℕ) × CollisionInfo)) : SimState :=
  Nat.rec s (fun _ st => positionSolverIteration c pairs st) c.positionIterations

/-- One pair of the velocity-solver pass: skip trigger pairs, re-detect
on the live colliders, and run the full resolve (positional correction
plus impulse plus friction). -/
def velocitySolverPair (c : PhysicsConsts) (s : SimState) (info : CollisionInfo) : SimState :=
  if ¬ info.colliderA.isTrigger ∧ ¬ info.colliderB.isTrigger then
    match CollisionDetection.detect s.transforms
        (liveCollider s info.colliderA) (liveCollider s info.colliderB) with
    | some finalInfo => CollisionResolver.resolve c s finalInfo
    | none => s
  else s

/-- Phase 6-2: the velocity solver; a single pass over the pair list. -/
def velocitySolverPhase (c : PhysicsConsts) (s : SimState)
    (pairs : List ((ℕ × ℕ) × CollisionInfo)) : SimState :=
  pairs.foldl (fun st kv => velocitySolverPair c st kv.2) s

/-- How many times the velocity-solver pass reaches
CollisionResolver.resolve, threading the state exactly as the pass
does. -/
def velocityResolveCalls (c : PhysicsConsts) :
    List ((ℕ × ℕ) × CollisionInfo) → SimState → ℕ
  | [], _ => 0
  | kv :: rest, s =>
    let info := kv.2
    let here : ℕ :=
      if ¬ info.colliderA.isTrigger ∧ ¬ info.colliderB.isTrigger ∧
          (CollisionDetection.detect s.transforms
            (liveCollider s info.colliderA) (liveCollider s info.colliderB)).isSome
      then 1 else 0
    here + velocityResolveCalls c rest (velocitySolverPair c s info)

/-- The first entry of a manifold's contact list (`info.contacts[0]`). -/
def firstContact (info : CollisionInfo) : ContactPoint :=
  info.contacts.headD ⟨Vector2.zero, Vector2.zero, 0⟩

/-- The enter/stay events of one collision pair: the A-to-B callback, then
the B-to-A callback with the normal negated.  The trigger flags are read
off the manifold's colliders (the same objects the registry holds; the
flag is not written during a step) while the contact sets are read off the
live registry entries. -/
def pairEvents (s : SimState) (info : CollisionInfo) : List PhysicsEvent :=
  let a := liveCollider s info.colliderA
  let b := liveCollider s info.colliderB
  let evA : List PhysicsEvent :=
    match a.gameObject with
    | some ga =>
      if a.isCollisionEnter b then
        if info.colliderA.isTrigger ∨ info.colliderB.isTrigger then [PhysicsEvent.triggerEnter ga b.id]
        else [PhysicsEvent.collisionEnter ga ⟨b.id, firstContact info, info.normal, info.penetration⟩]
      else if a.isCollisionStay b then
        if info.colliderA.isTrigger ∨ info.colliderB.isTrigger then [PhysicsEvent.triggerStay ga b.id]
        else [PhysicsEvent.collisionStay ga ⟨b.id, firstContact info, info.normal, info.penetration⟩]
      else []
    | none => []
  let evB : List PhysicsEvent :=
    match b.gameObject with
    | some gb =>
      if b.isCollisionEnter a then
        if info.colliderA.isTrigger ∨ info.colliderB.isTrigger then [PhysicsEvent.triggerEnter gb a.id]
        else [PhysicsEvent.collisionEnter gb ⟨a.id, firstContact info, info.normal.multiply (-1), info.penetration⟩]
      else if b.isCollisionStay a then
        if info.colliderA.isTrigger ∨ info.colliderB.isTrigger then [PhysicsEvent.triggerStay gb a.id]
        else [PhysicsEvent.collisionStay gb ⟨a.id, firstContact info, info.normal.multiply (-1), info.penetration⟩]
      else []
    | none => []
  evA ++ evB

/-- The exit event a collider emits against another: an exit is detected
from the contact-set delta; the callback goes to the collider's game
object and is a trigger exit when either collider is a trigger. -/
def exitEventFor (col other : Collider) : List PhysicsEvent :=
  if col.id = other.id then []
  else if col.isCollisionExit other then
    match col.gameObject with
    | some g =>
      if col.isTrigger ∨ other.isTrigger then [PhysicsEvent.triggerExit g other.id]
      else [PhysicsEvent.collisionExit g other.id]
    | none => []
  else []

/-- The exit loop of dispatchCollisionEvents: every ordered pair of
enabled colliders. -/
def exitEvents (s : SimState) : List PhysicsEvent :=
  let allColliders := s.colliders.filter (fun col => col.enabled)
  (allColliders.map (fun col => (allColliders.map (exitEventFor col)).flatten)).flatten

/-- Phase 7: dispatchCollisionEvents — enter/stay per detected pair, then
the exit sweep. -/
def dispatchCollisionEvents (s : SimState) (pairs : List ((ℕ × ℕ) × CollisionInfo)) :
    List PhysicsEvent :=
  (pairs.map (fun kv => pairEvents s kv.2)).flatten ++ exitEvents s

/-- The whole sub-step on the simulation state: integrate, bounds,
contact snapshot, broad+narrow phase, position solver, velocity solver,
event dispatch.  Returns the new state, the detected pair map and the
event trace. -/
def fixedUpdateCore (c : PhysicsConsts) (dt : ℝ) (s : SimState) :
    SimState × List ((ℕ × ℕ) × CollisionInfo) × List PhysicsEvent :=
  let s1 := integratePhase c dt s
  let s2 := boundsPhase s1
  let s3 := contactSnapshotPhase s2
  let r4 := narrowPhase s3
  let s5 := positionSolverPhase c r4.1 r4.2
  let s6 := velocitySolverPhase c s5 r4.2
  (s6, r4.2, dispatchCollisionEvents s6 r4.2)

/-! ### The manager state and the fixed-timestep accumulator loop -/

/-- PhysicsManager state: the simulation registries plus the manager's
own mutable gravity, fixed timestep, accumulator and previous pair
map. -/
structure ManagerState where
  sim : SimState
  gravity : Vector2
  fixedTimestep : ℝ
  accumulator : ℝ
  collisionPairs : List ((ℕ × ℕ) × CollisionInfo)

/-- The gravity property setter. -/
def setGravity (m : ManagerState) (value : Vector2) : ManagerState :=
  { m with gravity := value }

/-- Everything of a manager state except its gravity property: the
simulation registries, the fixed timestep, the accumulator and the stored
pair map. -/
def ManagerState.core (m : ManagerState) :
    SimState × ℝ × ℝ × List ((ℕ × ℕ) × CollisionInfo) :=
  (m.sim, m.fixedTimestep, m.accumulator, m.collisionPairs)

/-- One this.fixedUpdate(dt) call on the manager. -/
def fixedUpdate (c : PhysicsConsts) (dt : ℝ) (m : ManagerState) :
    ManagerState × List PhysicsEvent :=
  let r := fixedUpdateCore c dt m.sim
  ({ m with sim := r.1, collisionPairs := r.2.1 }, r.2.2)

/-- Run n sub-steps of length the manager's fixed timestep, concatenating
the event traces. -/
def runSubsteps (c : PhysicsConsts) : ℕ → ManagerState → ManagerState × List PhysicsEvent
  | 0, m => (m, [])
  | n + 1, m =>
    let r1 := fixedUpdate c m.fixedTimestep m
    let r2 := runSubsteps c n r1.1
    (r2.1, r1.2 ++ r2.2)

/-- The number of iterations of the while loop of update(dt) for a given
post-clamp accumulator: the loop runs while accumulator ≥ fixedTimestep
and subtracts fixedTimestep each time, so for a positive fixed timestep it
runs ⌊accumulator / fixedTimestep⌋ times (and zero times when that floor
is not positive). -/
def substepCount (m : ManagerState) (dt : ℝ) : ℕ :=
  let acc1 := m.accumulator + dt
  let acc2 := if acc1 > m.fixedTimestep * 5 then m.fixedTimestep * 5 else acc1
  (⌊acc2 / m.fixedTimestep⌋).toNat

/-- PhysicsManager.update(dt): accumulate dt, clamp the accumulator to 5
fixed timesteps, then run sub-steps while a whole fixed timestep
remains. -/
def update (c : PhysicsConsts) (dt : ℝ) (m : ManagerState) :
    ManagerState × List PhysicsEvent :=
  let acc1 := m.accumulator + dt
  let acc2 := if acc1 > m.fixedTimestep * 5 then m.fixedTimestep * 5 else acc1
  let n := (⌊acc2 / m.fixedTimestep⌋).toNat
  let r := runSubsteps c n { m with accumulator := acc2 }
  ({ r.1 with accumulator := acc2 - n * m.fixedTimestep }, r.2)

/-- The states reachable by step/update calls alone: the accumulator
starts at 0, the fixed timestep is positive (its setter clamps it to at
least 0.001 and it starts at 1/60), and each step applies update with an
arbitrary frame delta. -/
inductive Reachable (c : PhysicsConsts) : ManagerState → Prop where
  | init (m : ManagerState) (hacc : m.accumulator = 0) (hts : 0 < m.fixedTimestep) :
      Reachable c m
  | step (m : ManagerState) (dt : ℝ) (h : Reachable c m) : Reachable c (update c dt m).1

/-- A whole external frame sequence: update once per listed frame
delta. -/
def applyUpdates (c : PhysicsConsts) (dts : List ℝ) (m : ManagerState) : ManagerState :=
  dts.foldl (fun st dt => (update c dt st).1) m

end PhysicsManager

/-! ## Concrete scenes used to instantiate the theorems -/

/-- A scene whose every game object sits at the origin. -/
def trivialTf : TransformMap := fun _ => ⟨⟨0, 0⟩, 0⟩

/-- A fresh enabled, non-trigger collider with the default material, no
cached bounds, empty contact sets and no owning game object. -/
def mkCollider (id : ℕ) (shape : ColliderShape) (offset : Vector2) : Collider :=
  { id := id, enabled := true, isTrigger := false,
    material := PhysicsMaterial.defaultMat, offset := offset, shape := shape,
    bounds := none, currentCollisions := ∅, previousCollisions := ∅,
    gameObject := none }

/-- Unit-size test boxes: bounds [0,2]x[0,2] and [1,3]x[1,3], separating
overlap region [1,2]x[1,2]. -/
def boxFixtureA : Collider := mkCollider 1 (ColliderShape.box ⟨2, 2⟩) ⟨1, 1⟩

def boxFixtureB : Collider := mkCollider 2 (ColliderShape.box ⟨2, 2⟩) ⟨2, 2⟩

/-- Two unit circles whose centers differ by 0.00005 in y only: distinct
centers closer than the 0.0001 normal-fallback threshold. -/
def circleFixtureA : Collider := mkCollider 1 (ColliderShape.circle 1) ⟨0, 0⟩

def circleFixtureB : Collider := mkCollider 2 (ColliderShape.circle 1) ⟨0, 0.00005⟩

/-- Two unit circles at distance 1: an ordinary overlapping pair. -/
def circleFixtureC : Collider := mkCollider 3 (ColliderShape.circle 1) ⟨1, 0⟩

/-- A circle of radius 2 centered at (10,0): a ray from the origin along
the positive x axis first meets it at distance 8. -/
def circleFixtureD : Collider := mkCollider 4 (ColliderShape.circle 2) ⟨10, 0⟩

/-- A resting Dynamic body owned by game object 0. -/
def bodyFixture : RigidBody :=
  { enabled := true, bodyType := BodyType.DYNAMIC, mass := 1,
    velocity := ⟨0, 0⟩, angularVelocity := 0, acceleration := ⟨0, 0⟩,
    force := ⟨0, 0⟩, torque := 0, useGravity := true, drag := 0.1,
    angularDrag := 0.05, gravityScale := 1, isSleeping := false,
    sleepTimer := 0, gameObject := some 0 }

/-- A trigger copy of the first box fixture. -/
def triggerFixture : Collider := { boxFixtureA with isTrigger := true }

/-- A manifold whose first collider is a trigger. -/
def triggerInfoFixture : CollisionInfo :=
  ⟨triggerFixture, boxFixtureB, [⟨⟨1, 1⟩, ⟨0, 1⟩, 1⟩], ⟨0, 1⟩, 1⟩

/-- An empty simulation. -/
def emptySim : SimState := ⟨trivialTf, [], []⟩

/-- A freshly constructed manager: accumulator 0, fixed timestep 1/60. -/
def initialManager : PhysicsManager.ManagerState :=
  ⟨emptySim, ⟨0, 980⟩, 1 / 60, 0, []⟩

/-- The default constants with a different velocity-iteration count. -/
def altVelocityConsts : PhysicsConsts := { defaultConsts with velocityIterations := 7 }

/-! ## Basic vector lemmas -/

theorem Vector2.lengthSquared_nonneg (v : Vector2) : 0 ≤ v.lengthSquared :=
  add_nonneg (mul_self_nonneg _) (mul_self_nonneg _)

theorem Vector2.length_eq_sqrt (v : Vector2) : v.length = Real.sqrt v.lengthSquared := rfl

theorem Vector2.mul_self_length (v : Vector2) : v.length * v.length = v.lengthSquared :=
  Real.mul_self_sqrt v.lengthSquared_nonneg

theorem Vector2.length_pos (v : Vector2) (h : v.lengthSquared ≠ 0) : 0 < v.length := by
  rw [Vector2.length_eq_sqrt]
  exact Real.sqrt_pos.mpr (lt_of_le_of_ne v.lengthSquared_nonneg (Ne.symm h))

/-- normalize of a vector with nonzero squared length has length exactly
1. -/
theorem Vector2.normalize_length (v : Vector2) (h : v.lengthSquared ≠ 0) :
    v.normalize.length = 1 := by
  have hL : 0 < v.length := v.length_pos h
  have hLL : v.length * v.length = v.lengthSquared := v.mul_self_length
  rw [Vector2.normalize, if_neg hL.ne.symm]
  rw [Vector2.length_eq_sqrt]
  have hls : (v.divide v.length).lengthSquared = 1 := by
    simp only [Vector2.divide, Vector2.lengthSquared] at *
    field_simp
    linarith [hLL]
  rw [hls, Real.sqrt_one]

/-- Negating a vector preserves its length. -/
theorem Vector2.length_neg (v : Vector2) : (v.multiply (-1)).length = v.length := by
  simp only [Vector2.multiply, Vector2.length]
  ring_nf

/-! ## C6: material clamping -/

/-- C6 counterexample: the PhysicsMaterial constructor stores the friction
argument unclamped, so a material created with friction 2 violates
friction ≤ 1 — construction is a write the claim covers and it does not
clamp. -/
theorem material_ctor_no_clamp_cex :
    (PhysicsMaterial.create 2 0.2 1).friction = 2 ∧
      ¬ (PhysicsMaterial.create 2 0.2 1).friction ≤ 1 := by
  constructor
  · rfl
  · norm_num [PhysicsMaterial.create]

/-- C6 (amended): every write through the friction or restitution setter
clamps the stored value into [0,1]; the constructor stores its arguments
unclamped, so the interval invariant holds for setter writes but not for
arbitrary construction arguments. -/
theorem material_setters_clamp :
    ∀ (m : PhysicsMaterial) (v : ℝ),
      (0 ≤ (m.setFriction v).friction ∧ (m.setFriction v).friction ≤ 1) ∧
      (0 ≤ (m.setRestitution v).restitution ∧ (m.setRestitution v).restitution ≤ 1) ∧
      (∀ f r d : ℝ, (PhysicsMaterial.create f r d).friction = f ∧
        (PhysicsMaterial.create f r d).restitution = r) := by
  intro m v
  refine ⟨⟨le_max_left 0 _, max_le (by norm_num) (min_le_left 1 v)⟩,
    ⟨le_max_left 0 _, max_le (by norm_num) (min_le_left 1 v)⟩, ?_⟩
  intro f r d
  exact ⟨rfl, rfl⟩

/-! ## C5: the Box/Box contact point -/

/-- C5: on boxes with bounds [0,2]x[0,2] and [1,3]x[1,3] the Box/Box test
returns the contact point (3/2, 0): its x coordinate is the overlap
midpoint but its y coordinate is the Vector2 constructor default 0, not
the overlap midpoint 3/2 — the source builds the point from a single
constructor argument although its own comment calls the point the overlap
center. -/
theorem testAABB_contact_point_y_zero :
    CollisionDetection.testAABB trivialTf boxFixtureA boxFixtureB =
      some ⟨boxFixtureA, boxFixtureB, [⟨⟨3 / 2, 0⟩, ⟨0, 1⟩, 1⟩], ⟨0, 1⟩, 1⟩ ∧
    (max ((boxFixtureA.getBounds trivialTf).min.y) ((boxFixtureB.getBounds trivialTf).min.y) +
      min ((boxFixtureA.getBounds trivialTf).max.y) ((boxFixtureB.getBounds trivialTf).max.y)) * 0.5
      = 3 / 2 ∧
    (0 : ℝ) ≠ 3 / 2 := by
  have hA : boxFixtureA.getBounds trivialTf = ⟨⟨0, 0⟩, ⟨2, 2⟩⟩ := by
    simp only [Collider.getBounds, boxFixtureA, mkCollider, Collider.computeBounds,
      Collider.getWorldPosition, Vector2.multiply]
    norm_num
  have hB : boxFixtureB.getBounds trivialTf = ⟨⟨1, 1⟩, ⟨3, 3⟩⟩ := by
    simp only [Collider.getBounds, boxFixtureB, mkCollider, Collider.computeBounds,
      Collider.getWorldPosition, Vector2.multiply]
    norm_num
  refine ⟨?_, ?_, by norm_num⟩
  · simp only [CollisionDetection.testAABB, hA, hB, Vector2.multiply]
    norm_num [min_def, max_def]
  · rw [hA, hB]
    norm_num [min_def, max_def]

/-! ## C2: Circle/Circle detection -/

/-- C2 counterexample: two unit circles with distinct centers (0,0) and
(0, 0.00005) — the code's normal is the fallback (1,0) because the
distance is at most the 0.0001 threshold, while the claim prescribes the
normalized center delta (0,1) whenever the centers do not coincide. -/
theorem circle_normal_fallback_cex :
    (∃ info, CollisionDetection.testCircleCircle trivialTf circleFixtureA circleFixtureB 1 1 =
        some info ∧ info.normal = ⟨1, 0⟩) ∧
    circleFixtureA.getWorldPosition trivialTf ≠ circleFixtureB.getWorldPosition trivialTf ∧
    ((circleFixtureB.getWorldPosition trivialTf).subtract
        (circleFixtureA.getWorldPosition trivialTf)).normalize = ⟨0, 1⟩ ∧
    (Vector2.mk 1 0) ≠ ⟨0, 1⟩ := by
  have hposA : circleFixtureA.getWorldPosition trivialTf = ⟨0, 0⟩ := rfl
  have hposB : circleFixtureB.getWorldPosition trivialTf = ⟨0, 0.00005⟩ := rfl
  have hd : (Vector2.mk 0 0.00005).subtract ⟨0, 0⟩ = ⟨0, 0.00005⟩ := by
    simp only [Vector2.subtract, Vector2.mk.injEq]
    norm_num
  have hsq : (Vector2.mk 0 0.00005).lengthSquared = 0.00005 * 0.00005 := by
    simp only [Vector2.lengthSquared]
    norm_num
  have hsqrt2 : Real.sqrt ((0.00005 : ℝ) * 0.00005) = 0.00005 :=
    Real.sqrt_mul_self (by norm_num)
  have hsqrt : Real.sqrt ((Vector2.mk 0 0.00005).lengthSquared) = 0.00005 := by
    rw [hsq]
    exact hsqrt2
  have hlen : (Vector2.mk 0 0.00005).length = 0.00005 := hsqrt
  refine ⟨⟨⟨circleFixtureA, circleFixtureB, [⟨⟨1, 0⟩, ⟨1, 0⟩, 2 - 0.00005⟩],
      ⟨1, 0⟩, 2 - 0.00005⟩, ?_, rfl⟩, ?_, ?_, ?_⟩
  · rw [CollisionDetection.testCircleCircle]
    simp only [hposA, hposB, hd, hsq, hsqrt2]
    rw [if_neg (by norm_num), if_neg (by norm_num)]
    simp only [Option.some.injEq, CollisionInfo.mk.injEq, List.cons.injEq, and_true,
      ContactPoint.mk.injEq, Vector2.add, Vector2.multiply, Vector2.mk.injEq]
    norm_num
  · rw [hposA, hposB]
    simp only [ne_eq, Vector2.mk.injEq]
    norm_num
  · rw [hposA, hposB, hd, Vector2.normalize, if_neg (by rw [hlen]; norm_num), hlen]
    simp only [Vector2.divide, Vector2.mk.injEq]
    norm_num
  · simp only [ne_eq, Vector2.mk.injEq]
    norm_num

/-- C2 (amended): for nonnegative radii, Circle/Circle detection returns
no result iff the center distance is at least the radius sum; otherwise
the manifold's penetration is radiusSum − distance exactly, the contact
point is posA + normal × radiusA, and the normal is the normalized center
delta when the distance exceeds 0.0001 and the fallback (1,0) when it is
at most 0.0001 (so in particular when the centers coincide). -/
theorem testCircleCircle_spec (tf : TransformMap) (a b : Collider) (radiusA radiusB : ℝ)
    (hA : 0 ≤ radiusA) (hB : 0 ≤ radiusB) :
    (Real.sqrt ((b.getWorldPosition tf).subtract (a.getWorldPosition tf)).lengthSquared ≥
        radiusA + radiusB →
      CollisionDetection.testCircleCircle tf a b radiusA radiusB = none) ∧
    (Real.sqrt ((b.getWorldPosition tf).subtract (a.getWorldPosition tf)).lengthSquared <
        radiusA + radiusB →
      CollisionDetection.testCircleCircle tf a b radiusA radiusB =
        some ⟨a, b,
          [⟨(a.getWorldPosition tf).add
              ((if Real.sqrt ((b.getWorldPosition tf).subtract (a.getWorldPosition tf)).lengthSquared > 0.0001
                then ((b.getWorldPosition tf).subtract (a.getWorldPosition tf)).normalize
                else ⟨1, 0⟩).multiply radiusA),
            (if Real.sqrt ((b.getWorldPosition tf).subtract (a.getWorldPosition tf)).lengthSquared > 0.0001
              then ((b.getWorldPosition tf).subtract (a.getWorldPosition tf)).normalize
              else ⟨1, 0⟩),
            radiusA + radiusB -
              Real.sqrt ((b.getWorldPosition tf).subtract (a.getWorldPosition tf)).lengthSquared⟩],
          (if Real.sqrt ((b.getWorldPosition tf).subtract (a.getWorldPosition tf)).lengthSquared > 0.0001
            then ((b.getWorldPosition tf).subtract (a.getWorldPosition tf)).normalize
            else ⟨1, 0⟩),
          radiusA + radiusB -
            Real.sqrt ((b.getWorldPosition tf).subtract (a.getWorldPosition tf)).lengthSquared⟩) := by
  set delta := (b.getWorldPosition tf).subtract (a.getWorldPosition tf) with hdelta
  have hd0 : 0 ≤ delta.lengthSquared := delta.lengthSquared_nonneg
  have key : delta.lengthSquared ≥ (radiusA + radiusB) * (radiusA + radiusB) ↔
      Real.sqrt delta.lengthSquared ≥ radiusA + radiusB := by
    constructor
    · intro h
      calc radiusA + radiusB = Real.sqrt ((radiusA + radiusB) * (radiusA + radiusB)) :=
            (Real.sqrt_mul_self (by linarith)).symm
        _ ≤ Real.sqrt delta.lengthSquared := Real.sqrt_le_sqrt h
    · intro h
      calc (radiusA + radiusB) * (radiusA + radiusB)
            ≤ Real.sqrt delta.lengthSquared * Real.sqrt delta.lengthSquared :=
            mul_self_le_mul_self (by linarith) h
        _ = delta.lengthSquared := Real.mul_self_sqrt hd0
  constructor
  · intro h
    rw [CollisionDetection.testCircleCircle, if_pos (key.mpr h)]
  · intro h
    rw [CollisionDetection.testCircleCircle,
      if_neg (fun hcon => absurd (key.mp hcon) (not_le.mpr h))]

/-- C2 witness: two unit circles at centers (0,0) and (1,0) — the center
distance 1 lies below the radius sum 2, so the amended theorem yields the
manifold with normal (1,0), penetration 1 and contact point (1,0). -/
theorem testCircleCircle_spec_witness :
    CollisionDetection.testCircleCircle trivialTf circleFixtureA circleFixtureC 1 1 =
      some ⟨circleFixtureA, circleFixtureC, [⟨⟨1, 0⟩, ⟨1, 0⟩, 1⟩], ⟨1, 0⟩, 1⟩ := by
  have hposA : circleFixtureA.getWorldPosition trivialTf = ⟨0, 0⟩ := rfl
  have hposC : circleFixtureC.getWorldPosition trivialTf = ⟨1, 0⟩ := rfl
  have hsq : ((Vector2.mk 1 0).subtract ⟨0, 0⟩).lengthSquared = 1 := by
    simp only [Vector2.subtract, Vector2.lengthSquared]
    norm_num
  have hsqrt : Real.sqrt ((circleFixtureC.getWorldPosition trivialTf).subtract
      (circleFixtureA.getWorldPosition trivialTf)).lengthSquared = 1 := by
    rw [hposA, hposC, hsq, Real.sqrt_one]
  have h := (testCircleCircle_spec trivialTf circleFixtureA circleFixtureC 1 1
    (by norm_num) (by norm_num)).2 (by rw [hsqrt]; norm_num)
  have hnorm : ((Vector2.mk 1 0).subtract ⟨0, 0⟩).normalize = ⟨1, 0⟩ := by
    have hlen1 : ((Vector2.mk 1 0).subtract ⟨0, 0⟩).length = 1 := by
      rw [Vector2.length_eq_sqrt, hsq, Real.sqrt_one]
    rw [Vector2.normalize, if_neg (by rw [hlen1]; norm_num), hlen1]
    simp only [Vector2.subtract, Vector2.divide, Vector2.mk.injEq]
    norm_num
  rw [h, hsqrt]
  rw [if_pos (by norm_num : (1 : ℝ) > 0.0001)]
  rw [hposA, hposC, hnorm]
  simp only [Option.some.injEq, CollisionInfo.mk.injEq, List.cons.injEq, and_true,
    ContactPoint.mk.injEq, Vector2.add, Vector2.multiply, Vector2.mk.injEq]
  norm_num

/-! ## C3: manifold invariants of the detection dispatcher -/

theorem Vector2.length_unitX : (Vector2.mk 1 0).length = 1 := by
  simp only [Vector2.length]
  norm_num [Real.sqrt_one]

theorem Vector2.length_negUnitX : (Vector2.mk (-1) 0).length = 1 := by
  simp only [Vector2.length]
  norm_num [Real.sqrt_one]

theorem Vector2.length_unitY : (Vector2.mk 0 1).length = 1 := by
  simp only [Vector2.length]
  norm_num [Real.sqrt_one]

theorem Vector2.length_negUnitY : (Vector2.mk 0 (-1)).length = 1 := by
  simp only [Vector2.length]
  norm_num [Real.sqrt_one]

/-- A Box/Box manifold has a unit axis normal and a nonnegative
penetration (both per-axis overlaps are nonnegative once the separation
test passed). -/
theorem testAABB_invariants (tf : TransformMap) (a b : Collider) (info : CollisionInfo)
    (h : CollisionDetection.testAABB tf a b = some info) :
    info.normal.length = 1 ∧ 0 ≤ info.penetration := by
  simp only [CollisionDetection.testAABB] at h
  split at h
  · exact absurd h (by simp)
  · rename_i hsep
    push_neg at hsep
    obtain ⟨h1, h2, h3, h4⟩ := hsep
    split at h
    · split at h <;>
      · cases Option.some.inj h
        exact ⟨by simp only [Vector2.length_unitX, Vector2.length_negUnitX],
          le_min (by linarith) (by linarith)⟩
    · split at h <;>
      · cases Option.some.inj h
        exact ⟨by simp only [Vector2.length_unitY, Vector2.length_negUnitY],
          le_min (by linarith) (by linarith)⟩

/-- A Circle/Circle manifold (for nonnegative radii) has a unit normal
and a nonnegative penetration. -/
theorem testCircleCircle_invariants (tf : TransformMap) (a b : Collider)
    (radiusA radiusB : ℝ) (hA : 0 ≤ radiusA) (hB : 0 ≤ radiusB) (info : CollisionInfo)
    (h : CollisionDetection.testCircleCircle tf a b radiusA radiusB = some info) :
    info.normal.length = 1 ∧ 0 ≤ info.penetration := by
  simp only [CollisionDetection.testCircleCircle] at h
  split at h
  · exact absurd h (by simp)
  · rename_i hlt
    push_neg at hlt
    have hd0 : 0 ≤ ((b.getWorldPosition tf).subtract (a.getWorldPosition tf)).lengthSquared :=
      Vector2.lengthSquared_nonneg _
    have hpen : Real.sqrt ((b.getWorldPosition tf).subtract (a.getWorldPosition tf)).lengthSquared
        ≤ radiusA + radiusB := by
      calc Real.sqrt ((b.getWorldPosition tf).subtract (a.getWorldPosition tf)).lengthSquared
          ≤ Real.sqrt ((radiusA + radiusB) * (radiusA + radiusB)) := Real.sqrt_le_sqrt hlt.le
        _ = radiusA + radiusB := Real.sqrt_mul_self (by linarith)
    split at h
    · rename_i hdist
      cases Option.some.inj h
      refine ⟨Vector2.normalize_length _ ?_, by simpa using hpen⟩
      intro hzero
      rw [hzero, Real.sqrt_zero] at hdist
      norm_num at hdist
    · cases Option.some.inj h
      exact ⟨Vector2.length_unitX, by simpa using hpen⟩

/-- A Box/Circle manifold (for a nonnegative radius) has a unit normal
and a nonnegative penetration. -/
theorem testAABBCircle_invariants (tf : TransformMap) (box circle : Collider)
    (radius : ℝ) (hr : 0 ≤ radius) (info : CollisionInfo)
    (h : CollisionDetection.testAABBCircle tf box circle radius = some info) :
    info.normal.length = 1 ∧ 0 ≤ info.penetration := by
  simp only [CollisionDetection.testAABBCircle] at h
  split at h
  · exact absurd h (by simp)
  · rename_i hlt
    push_neg at hlt
    have hpen : Real.sqrt
        ((circle.getWorldPosition tf).subtract
          ⟨max (box.getBounds tf).min.x (min (circle.getWorldPosition tf).x (box.getBounds tf).max.x),
           max (box.getBounds tf).min.y (min (circle.getWorldPosition tf).y (box.getBounds tf).max.y)⟩).lengthSquared
        ≤ radius := by
      calc Real.sqrt _ ≤ Real.sqrt (radius * radius) := Real.sqrt_le_sqrt hlt.le
        _ = radius := Real.sqrt_mul_self hr
    split at h
    · rename_i hdist
      cases Option.some.inj h
      refine ⟨Vector2.normalize_length _ ?_, by simpa using hpen⟩
      intro hzero
      rw [hzero, Real.sqrt_zero] at hdist
      norm_num at hdist
    · split at h
      · cases Option.some.inj h
        exact ⟨Vector2.length_negUnitX, by simpa using hpen⟩
      · split at h
        · cases Option.some.inj h
          exact ⟨Vector2.length_unitX, by simpa using hpen⟩
        · split at h
          · cases Option.some.inj h
            exact ⟨Vector2.length_negUnitY, by simpa using hpen⟩
          · cases Option.some.inj h
            exact ⟨Vector2.length_unitY, by simpa using hpen⟩

/-- C3: every manifold the dispatcher returns — Box/Box, Circle/Circle,
Box/Circle and the swapped-and-negated Circle/Box case — has a normal of
unit length within 1e-4 and a nonnegative penetration (radii are
nonnegative for every reachable circle collider, whose radius setter
clamps to at least 0.1). -/
theorem detect_manifold_invariants (tf : TransformMap) (a b : Collider)
    (info : CollisionInfo) (hA : a.radiusNonneg) (hB : b.radiusNonneg)
    (h : CollisionDetection.detect tf a b = some info) :
    |info.normal.length - 1| ≤ 0.0001 ∧ 0 ≤ info.penetration := by
  have main : info.normal.length = 1 ∧ 0 ≤ info.penetration := by
    rcases hsa : a.shape with sizeA | radiusA <;> rcases hsb : b.shape with sizeB | radiusB <;>
      rw [CollisionDetection.detect, hsa, hsb] at h
    · exact testAABB_invariants tf a b info h
    · exact testAABBCircle_invariants tf a b radiusB (hB radiusB hsb) info h
    · rw [Option.map_eq_some'] at h
      obtain ⟨info0, h0, hswap⟩ := h
      have base := testAABBCircle_invariants tf b a radiusA (hA radiusA hsa) info0 h0
      subst hswap
      exact ⟨by rw [CollisionInfo.swapColliders]; simpa [Vector2.length_neg] using base.1,
        base.2⟩
    · exact testCircleCircle_invariants tf a b radiusA radiusB
        (hA radiusA hsa) (hB radiusB hsb) info h
  rw [main.1]
  norm_num
  exact main.2

/-- C3 witness: the two unit circles at distance 1 produce a manifold,
and the theorem applies to it. -/
theorem detect_manifold_invariants_witness :
    circleFixtureA.radiusNonneg ∧ circleFixtureC.radiusNonneg ∧
    ∃ info, CollisionDetection.detect trivialTf circleFixtureA circleFixtureC = some info ∧
      |info.normal.length - 1| ≤ 0.0001 ∧ 0 ≤ info.penetration := by
  have hA : circleFixtureA.radiusNonneg := by
    intro r hr
    cases hr
    norm_num
  have hC : circleFixtureC.radiusNonneg := by
    intro r hr
    cases hr
    norm_num
  have hsq : ((Vector2.mk 1 0).subtract ⟨0, 0⟩).lengthSquared = 1 := by
    simp only [Vector2.subtract, Vector2.lengthSquared]
    norm_num
  have hform : CollisionDetection.detect trivialTf circleFixtureA circleFixtureC =
      CollisionDetection.testCircleCircle trivialTf circleFixtureA circleFixtureC 1 1 := rfl
  have hdet : ∃ info, CollisionDetection.detect trivialTf circleFixtureA circleFixtureC = some info := by
    rw [hform, CollisionDetection.testCircleCircle]
    have hposA : circleFixtureA.getWorldPosition trivialTf = ⟨0, 0⟩ := rfl
    have hposC : circleFixtureC.getWorldPosition trivialTf = ⟨1, 0⟩ := rfl
    simp only [hposA, hposC, hsq]
    rw [if_neg (by norm_num)]
    exact ⟨_, rfl⟩
  obtain ⟨info, hinfo⟩ := hdet
  exact ⟨hA, hC, info, hinfo,
    detect_manifold_invariants trivialTf circleFixtureA circleFixtureC info hA hC hinfo⟩

/-! ## C1: the integrator performs the claimed steps in order -/

/-- Speed comparison against a nonnegative bound can be done on squared
lengths, as the integrator does. -/
theorem Vector2.sq_gt_iff_length_gt (v : Vector2) (m : ℝ) (hm : 0 ≤ m) :
    v.lengthSquared > m * m ↔ v.length > m := by
  constructor
  · intro h
    have h2 := Real.sqrt_lt_sqrt (mul_self_nonneg m) h
    rwa [Real.sqrt_mul_self hm] at h2
  · intro h
    have h2 : m * m < v.length * v.length := mul_self_lt_mul_self hm h
    rwa [Vector2.mul_self_length] at h2

/-- The claim's speed clamp coincides with the squared-length test the
code performs, for a nonnegative speed limit. -/
theorem IntegratorSpec.clampStep_code (c : PhysicsConsts) (hm : 0 ≤ c.maxVelocity)
    (s : RigidBody × Transform) :
    IntegratorSpec.clampStep c s =
      if s.1.velocity.lengthSquared > c.maxVelocity * c.maxVelocity
      then ({ s.1 with velocity := s.1.velocity.normalize.multiply c.maxVelocity }, s.2)
      else s := by
  rw [IntegratorSpec.clampStep]
  by_cases h : s.1.velocity.length > c.maxVelocity
  · rw [if_pos h, if_pos ((s.1.velocity.sq_gt_iff_length_gt c.maxVelocity hm).mpr h)]
  · rw [if_neg h,
      if_neg (fun hc => h ((s.1.velocity.sq_gt_iff_length_gt c.maxVelocity hm).mp hc))]

/-- C1: on a Dynamic, awake body with an owning game object, one
integrator call performs exactly the claim's steps in the claim's order —
gravity accumulation, acceleration, velocity integration, drag, speed
clamp, translation, angular damping and rotation, accumulator reset —
followed by the sleep-system update the spec describes separately. -/
theorem integrator_performs_spec_steps (c : PhysicsConsts) (dt : ℝ) (b : RigidBody)
    (t : Transform) (g : ℕ) (hbt : b.bodyType = BodyType.DYNAMIC)
    (hs : b.isSleeping = false) (hg : b.gameObject = some g) (hm : 0 ≤ c.maxVelocity) :
    RigidBody.fixedUpdate c dt b t =
      (RigidBody.updateSleep c dt (IntegratorSpec.integrate c dt (b, t)).1,
        (IntegratorSpec.integrate c dt (b, t)).2) := by
  obtain ⟨en, bt, mass, vel, angv, acc, f, tq, ug, drg, adrag, gs, slp, st, go⟩ := b
  simp only at hbt hs hg
  subst hbt
  subst hs
  subst hg
  simp only [RigidBody.fixedUpdate, IntegratorSpec.integrate, IntegratorSpec.gravityStep,
    IntegratorSpec.accelStep, IntegratorSpec.velocityStep, IntegratorSpec.dragStep,
    IntegratorSpec.clampStep_code c hm, IntegratorSpec.translateStep,
    IntegratorSpec.angularStep, IntegratorSpec.resetStep, RigidBody.inverseMass]
  cases ug <;> simp [apply_ite]

/-- C1 witness: the theorem applied to a fresh Dynamic body at rest under
the default constants. -/
theorem integrator_performs_spec_steps_witness :
    RigidBody.fixedUpdate defaultConsts 0.1 bodyFixture ⟨⟨0, 0⟩, 0⟩ =
      (RigidBody.updateSleep defaultConsts 0.1
        (IntegratorSpec.integrate defaultConsts 0.1 (bodyFixture, ⟨⟨0, 0⟩, 0⟩)).1,
       (IntegratorSpec.integrate defaultConsts 0.1 (bodyFixture, ⟨⟨0, 0⟩, 0⟩)).2) :=
  integrator_performs_spec_steps defaultConsts 0.1 bodyFixture ⟨⟨0, 0⟩, 0⟩ 0
    rfl rfl rfl (by norm_num [defaultConsts])

/-! ## C7: raycast returns the closest hit -/

theorem hitOf_cons (tf : TransformMap) (origin dir : Vector2) (maxD : ℝ)
    (col : Collider) (rest : List Collider) (h : RaycastHit) :
    PhysicsManager.HitOf tf origin dir maxD (col :: rest) h ↔
      (col.enabled = true ∧ Raycast.raycastCollider tf origin dir col maxD = some h) ∨
      PhysicsManager.HitOf tf origin dir maxD rest h := by
  constructor
  · rintro ⟨c, hmem, hen, hrc⟩
    rcases List.mem_cons.mp hmem with hc | hc
    · subst hc
      exact Or.inl ⟨hen, hrc⟩
    · exact Or.inr ⟨c, hc, hen, hrc⟩
  · rintro (⟨hen, hrc⟩ | ⟨c, hc, hen, hrc⟩)
    · exact ⟨col, List.mem_cons_self col rest, hen, hrc⟩
    · exact ⟨c, List.mem_cons_of_mem col hc, hen, hrc⟩

/-- The raycast scan loop either leaves its accumulator untouched or
settles on a hit of the scanned pool strictly closer than the incoming
closest distance; and the final closest distance is a lower bound on
every hit of the pool. -/
theorem raycastLoop_spec (tf : TransformMap) (origin dir : Vector2) (maxD : ℝ) :
    ∀ (cols : List Collider) (best : Option RaycastHit) (cd : ℝ),
      (((PhysicsManager.raycastLoop tf origin dir maxD cols (best, cd)).1 = best ∧
        (PhysicsManager.raycastLoop tf origin dir maxD cols (best, cd)).2 = cd) ∨
       (∃ h, (PhysicsManager.raycastLoop tf origin dir maxD cols (best, cd)).1 = some h ∧
          (PhysicsManager.raycastLoop tf origin dir maxD cols (best, cd)).2 = h.distance ∧
          h.distance < cd ∧ PhysicsManager.HitOf tf origin dir maxD cols h)) ∧
      (∀ h2, PhysicsManager.HitOf tf origin dir maxD cols h2 →
        (PhysicsManager.raycastLoop tf origin dir maxD cols (best, cd)).2 ≤ h2.distance) := by
  intro cols
  induction cols with
  | nil =>
    intro best cd
    refine ⟨Or.inl ⟨rfl, rfl⟩, ?_⟩
    rintro h2 ⟨c, hc, _, _⟩
    exact absurd hc (List.not_mem_nil c)
  | cons col rest ih =>
    intro best cd
    by_cases hen : col.enabled = true
    · cases hrc : Raycast.raycastCollider tf origin dir col maxD with
      | none =>
        have hstep : PhysicsManager.raycastLoop tf origin dir maxD (col :: rest) (best, cd) =
            PhysicsManager.raycastLoop tf origin dir maxD rest (best, cd) := by
          rw [PhysicsManager.raycastLoop, if_pos hen, hrc]
        rw [hstep]
        refine ⟨?_, ?_⟩
        · rcases (ih best cd).1 with hl | ⟨h, h1, h2, h3, h4⟩
          · exact Or.inl hl
          · exact Or.inr ⟨h, h1, h2, h3, (hitOf_cons tf origin dir maxD col rest h).mpr (Or.inr h4)⟩
        · intro h2 hh2
          rcases (hitOf_cons tf origin dir maxD col rest h2).mp hh2 with ⟨_, hcol⟩ | hrest
          · rw [hrc] at hcol
            exact absurd hcol (by simp)
          · exact (ih best cd).2 h2 hrest
      | some hit =>
        by_cases hlt : hit.distance < cd
        · have hstep : PhysicsManager.raycastLoop tf origin dir maxD (col :: rest) (best, cd) =
              PhysicsManager.raycastLoop tf origin dir maxD rest (some hit, hit.distance) := by
            rw [PhysicsManager.raycastLoop, if_pos hen, hrc]
            dsimp only
            rw [if_pos hlt]
          rw [hstep]
          have hmem : PhysicsManager.HitOf tf origin dir maxD (col :: rest) hit :=
            (hitOf_cons tf origin dir maxD col rest hit).mpr (Or.inl ⟨hen, hrc⟩)
          refine ⟨?_, ?_⟩
          · rcases (ih (some hit) hit.distance).1 with ⟨h1, h2⟩ | ⟨h, h1, h2, h3, h4⟩
            · exact Or.inr ⟨hit, h1, h2, hlt, hmem⟩
            · exact Or.inr ⟨h, h1, h2, lt_trans h3 hlt,
                (hitOf_cons tf origin dir maxD col rest h).mpr (Or.inr h4)⟩
          · intro h2 hh2
            have hmono : (PhysicsManager.raycastLoop tf origin dir maxD rest
                (some hit, hit.distance)).2 ≤ hit.distance := by
              rcases (ih (some hit) hit.distance).1 with ⟨_, he⟩ | ⟨h, _, he, hlt2, _⟩
              · rw [he]
              · rw [he]; exact hlt2.le
            rcases (hitOf_cons tf origin dir maxD col rest h2).mp hh2 with ⟨_, hcol⟩ | hrest
            · rw [hrc] at hcol
              cases Option.some.inj hcol
              exact hmono
            · exact (ih (some hit) hit.distance).2 h2 hrest
        · have hstep : PhysicsManager.raycastLoop tf origin dir maxD (col :: rest) (best, cd) =
              PhysicsManager.raycastLoop tf origin dir maxD rest (best, cd) := by
            rw [PhysicsManager.raycastLoop, if_pos hen, hrc]
            dsimp only
            rw [if_neg hlt]
          rw [hstep]
          refine ⟨?_, ?_⟩
          · rcases (ih best cd).1 with hl | ⟨h, h1, h2, h3, h4⟩
            · exact Or.inl hl
            · exact Or.inr ⟨h, h1, h2, h3, (hitOf_cons tf origin dir maxD col rest h).mpr (Or.inr h4)⟩
          · intro h2 hh2
            have hmono : (PhysicsManager.raycastLoop tf origin dir maxD rest (best, cd)).2 ≤ cd := by
              rcases (ih best cd).1 with ⟨_, he⟩ | ⟨h, _, he, hlt2, _⟩
              · rw [he]
              · rw [he]; exact hlt2.le
            rcases (hitOf_cons tf origin dir maxD col rest h2).mp hh2 with ⟨_, hcol⟩ | hrest
            · rw [hrc] at hcol
              cases Option.some.inj hcol
              exact le_trans hmono (not_lt.mp hlt)
            · exact (ih best cd).2 h2 hrest
    · have hstep : PhysicsManager.raycastLoop tf origin dir maxD (col :: rest) (best, cd) =
          PhysicsManager.raycastLoop tf origin dir maxD rest (best, cd) := by
        rw [PhysicsManager.raycastLoop, if_neg hen]
      rw [hstep]
      refine ⟨?_, ?_⟩
      · rcases (ih best cd).1 with hl | ⟨h, h1, h2, h3, h4⟩
        · exact Or.inl hl
        · exact Or.inr ⟨h, h1, h2, h3, (hitOf_cons tf origin dir maxD col rest h).mpr (Or.inr h4)⟩
      · intro h2 hh2
        rcases (hitOf_cons tf origin dir maxD col rest h2).mp hh2 with ⟨hen2, _⟩ | hrest
        · exact absurd hen2 hen
        · exact (ih best cd).2 h2 hrest

/-- C7 (amended): raycast returns the hit with minimum distance among the
hits of enabled shapes whose distance is strictly less than maxDistance,
and null when every such hit has distance at least maxDistance — a hit at
exactly maxDistance is produced by the per-shape raycast but discarded by
the strict closest-distance comparison. -/
theorem raycast_returns_closest_strict (tf : TransformMap) (colliders : List Collider)
    (origin direction : Vector2) (maxDistance : ℝ) :
    (∀ h, PhysicsManager.raycast tf colliders origin direction maxDistance = some h →
      PhysicsManager.HitOf tf origin direction.normalize maxDistance colliders h ∧
      h.distance < maxDistance ∧
      (∀ h2, PhysicsManager.HitOf tf origin direction.normalize maxDistance colliders h2 →
        h.distance ≤ h2.distance)) ∧
    (PhysicsManager.raycast tf colliders origin direction maxDistance = none →
      ∀ h2, PhysicsManager.HitOf tf origin direction.normalize maxDistance colliders h2 →
        ¬ h2.distance < maxDistance) := by
  have spec := raycastLoop_spec tf origin direction.normalize maxDistance colliders none maxDistance
  constructor
  · intro h hres
    rw [PhysicsManager.raycast] at hres
    rcases spec.1 with ⟨h1, _⟩ | ⟨h0, h1, h2, h3, h4⟩
    · rw [hres] at h1
      exact absurd h1 (by simp)
    · rw [hres] at h1
      cases Option.some.inj h1
      refine ⟨h4, h3, ?_⟩
      intro h2x hh2
      have := spec.2 h2x hh2
      rw [h2] at this
      exact this
  · intro hres h2 hh2
    rw [PhysicsManager.raycast] at hres
    rcases spec.1 with ⟨_, hcd⟩ | ⟨h0, h1, _, _, _⟩
    · have := spec.2 h2 hh2
      rw [hcd] at this
      exact not_lt.mpr this
    · rw [hres] at h1
      exact absurd h1 (by simp)

theorem Vector2.normalize_unitX : (Vector2.mk 1 0).normalize = ⟨1, 0⟩ := by
  have hlen : (Vector2.mk 1 0).length = 1 := Vector2.length_unitX
  rw [Vector2.normalize, if_neg (by rw [hlen]; norm_num), hlen]
  simp only [Vector2.divide, Vector2.mk.injEq]
  norm_num

/-- C7 counterexample: a circle of radius 2 at (10,0) is first hit by the
ray from the origin along (1,0) at distance exactly 8, the per-shape
raycast reports that hit for maxDistance 8, yet raycast with maxDistance
8 returns null because only hits strictly closer than maxDistance are
kept. -/
theorem raycast_excludes_exact_maxDistance_cex :
    Raycast.raycastCollider trivialTf ⟨0, 0⟩ ((Vector2.mk 1 0).normalize) circleFixtureD 8 =
      some ⟨circleFixtureD, ⟨8, 0⟩, ⟨-1, 0⟩, 8⟩ ∧
    PhysicsManager.raycast trivialTf [circleFixtureD] ⟨0, 0⟩ ⟨1, 0⟩ 8 = none := by
  have hsqrt16 : Real.sqrt 16 = 4 := by
    rw [show (16 : ℝ) = 4 * 4 by norm_num]
    exact Real.sqrt_mul_self (by norm_num)
  have hlen2 : (Vector2.mk (-2) 0).length = 2 := by
    rw [Vector2.length, show (-2 : ℝ) * -2 + 0 * 0 = 2 * 2 by ring]
    exact Real.sqrt_mul_self (by norm_num)
  have hnorm3 : (Vector2.mk (-2) 0).normalize = ⟨-1, 0⟩ := by
    rw [Vector2.normalize, if_neg (by rw [hlen2]; norm_num), hlen2]
    simp only [Vector2.divide, Vector2.mk.injEq]
    norm_num
  have hcollider : Raycast.raycastCollider trivialTf ⟨0, 0⟩ ((Vector2.mk 1 0).normalize)
      circleFixtureD 8 = some ⟨circleFixtureD, ⟨8, 0⟩, ⟨-1, 0⟩, 8⟩ := by
    rw [Vector2.normalize_unitX]
    show Raycast.raycastCircle trivialTf ⟨0, 0⟩ ⟨1, 0⟩ circleFixtureD 2 8 = _
    have hcenter : circleFixtureD.getWorldPosition trivialTf = ⟨10, 0⟩ := rfl
    simp only [Raycast.raycastCircle, hcenter, Vector2.subtract, Vector2.dot]
    norm_num
    rw [hsqrt16]
    norm_num [Vector2.add, Vector2.multiply]
    exact hnorm3
  refine ⟨hcollider, ?_⟩
  rw [PhysicsManager.raycast, PhysicsManager.raycastLoop]
  rw [if_pos (by rfl : circleFixtureD.enabled = true), hcollider]
  dsimp only
  rw [if_neg (by norm_num)]
  rw [PhysicsManager.raycastLoop]

/-! ## C4: step(0) is the identity on reachable manager states -/

theorem fixedUpdate_fixedTimestep (c : PhysicsConsts) (dt : ℝ)
    (m : PhysicsManager.ManagerState) :
    (PhysicsManager.fixedUpdate c dt m).1.fixedTimestep = m.fixedTimestep := rfl

theorem runSubsteps_fixedTimestep (c : PhysicsConsts) (n : ℕ) :
    ∀ m : PhysicsManager.ManagerState,
      (PhysicsManager.runSubsteps c n m).1.fixedTimestep = m.fixedTimestep := by
  induction n with
  | zero => intro m; rfl
  | succ k ih =>
    intro m
    rw [PhysicsManager.runSubsteps]
    exact (ih _).trans (fixedUpdate_fixedTimestep c m.fixedTimestep m)

theorem update_fixedTimestep (c : PhysicsConsts) (dt : ℝ)
    (m : PhysicsManager.ManagerState) :
    (PhysicsManager.update c dt m).1.fixedTimestep = m.fixedTimestep := by
  simp only [PhysicsManager.update]
  exact runSubsteps_fixedTimestep c _ _

/-- What remains of the accumulator after the while loop runs its
⌊acc/ft⌋ iterations is below one fixed timestep. -/
theorem accum_remainder_lt (acc ft : ℝ) (hft : 0 < ft) :
    acc - ((⌊acc / ft⌋).toNat : ℝ) * ft < ft := by
  by_cases h : 0 ≤ acc
  · have h1 : (0 : ℤ) ≤ ⌊acc / ft⌋ := Int.floor_nonneg.mpr (div_nonneg h hft.le)
    have h2 : ((⌊acc / ft⌋).toNat : ℝ) = ((⌊acc / ft⌋ : ℤ) : ℝ) := by
      exact_mod_cast Int.toNat_of_nonneg h1
    rw [h2]
    have h3 : acc / ft < ⌊acc / ft⌋ + 1 := Int.lt_floor_add_one _
    have h4 : acc < (↑⌊acc / ft⌋ + 1) * ft := (div_lt_iff₀ hft).mp h3
    nlinarith
  · push_neg at h
    have h1 : ⌊acc / ft⌋ ≤ 0 := Int.floor_nonpos (div_neg_of_neg_of_pos h hft).le
    rw [Int.toNat_of_nonpos h1]
    push_cast
    linarith

/-- Reachable manager states keep the accumulator strictly below the
(positive) fixed timestep. -/
theorem reachable_acc_lt (c : PhysicsConsts) (m : PhysicsManager.ManagerState)
    (h : PhysicsManager.Reachable c m) :
    m.accumulator < m.fixedTimestep ∧ 0 < m.fixedTimestep := by
  induction h with
  | init m0 hacc hts => exact ⟨by rw [hacc]; exact hts, hts⟩
  | step m0 dt h0 ih =>
    obtain ⟨hlt, hts⟩ := ih
    have hftkeep := update_fixedTimestep c dt m0
    refine ⟨?_, by rw [hftkeep]; exact hts⟩
    rw [hftkeep]
    simp only [PhysicsManager.update]
    exact accum_remainder_lt _ _ hts

/-- C4: on every reachable manager state, step(0) runs zero sub-steps —
so no body integration, collision detection or event dispatch happens (a
sub-step is the only place these occur and the event trace is empty) —
and the whole manager state is unchanged. -/
theorem step_zero_identity (c : PhysicsConsts) (m : PhysicsManager.ManagerState)
    (h : PhysicsManager.Reachable c m) :
    PhysicsManager.update c 0 m = (m, []) ∧ PhysicsManager.substepCount m 0 = 0 := by
  obtain ⟨hlt, hts⟩ := reachable_acc_lt c m h
  have hnoclamp : ¬ (m.accumulator > m.fixedTimestep * 5) := by
    push_neg
    linarith
  have hfloor : (⌊m.accumulator / m.fixedTimestep⌋).toNat = 0 := by
    have hdiv : m.accumulator / m.fixedTimestep < 1 := (div_lt_one hts).mpr hlt
    have hfl : ⌊m.accumulator / m.fixedTimestep⌋ < 1 := by
      exact_mod_cast Int.floor_lt.mpr (by exact_mod_cast hdiv)
    exact Int.toNat_of_nonpos (Int.lt_add_one_iff.mp hfl)
  constructor
  · simp only [PhysicsManager.update, add_zero]
    rw [if_neg hnoclamp, hfloor]
    simp only [PhysicsManager.runSubsteps]
    simp
  · simp only [PhysicsManager.substepCount, add_zero]
    rw [if_neg hnoclamp, hfloor]

/-- C4 witness: the freshly constructed manager is reachable and step(0)
leaves it untouched. -/
theorem step_zero_identity_witness :
    PhysicsManager.Reachable defaultConsts initialManager ∧
    PhysicsManager.update defaultConsts 0 initialManager = (initialManager, []) ∧
    PhysicsManager.substepCount initialManager 0 = 0 := by
  have hreach : PhysicsManager.Reachable defaultConsts initialManager :=
    PhysicsManager.Reachable.init initialManager rfl (by norm_num [initialManager])
  exact ⟨hreach, step_zero_identity defaultConsts initialManager hreach⟩

/-! ## C8: trigger pairs are inert in the solvers and produce only
trigger events -/

/-- C8: when either collider of a detected pair is a trigger, the
position-solver step and the velocity-solver step for that pair leave the
simulation state — every body's velocity and every transform — untouched,
and both the enter/stay dispatch of the pair and the exit sweep emit only
trigger events for it. -/
theorem trigger_pair_skips_solvers (c : PhysicsConsts) (s : SimState)
    (info : CollisionInfo)
    (h : info.colliderA.isTrigger = true ∨ info.colliderB.isTrigger = true) :
    PhysicsManager.positionSolverPair c s info = s ∧
    PhysicsManager.velocitySolverPair c s info = s ∧
    (∀ e ∈ PhysicsManager.pairEvents s info, e.isTriggerEvent) ∧
    (∀ col other : Collider, col.isTrigger = true ∨ other.isTrigger = true →
      ∀ e ∈ PhysicsManager.exitEventFor col other, e.isTriggerEvent) := by
  have hguard : ¬ (¬ (info.colliderA.isTrigger : Prop) ∧ ¬ (info.colliderB.isTrigger : Prop)) := by
    rcases h with h | h
    · exact fun hc => hc.1 h
    · exact fun hc => hc.2 h
  have htrig : (info.colliderA.isTrigger : Prop) ∨ (info.colliderB.isTrigger : Prop) := h
  refine ⟨?_, ?_, ?_, ?_⟩
  · rw [PhysicsManager.positionSolverPair, if_neg hguard]
  · rw [PhysicsManager.velocitySolverPair, if_neg hguard]
  · intro e he
    simp only [PhysicsManager.pairEvents, if_pos htrig] at he
    rcases List.mem_append.mp he with h1 | h1 <;>
    · split at h1
      · split at h1
        · rcases List.mem_singleton.mp h1 with rfl
          trivial
        · split at h1
          · rcases List.mem_singleton.mp h1 with rfl
            trivial
          · exact absurd h1 (List.not_mem_nil e)
      · exact absurd h1 (List.not_mem_nil e)
  · intro col other hco e he
    have hco2 : (col.isTrigger : Prop) ∨ (other.isTrigger : Prop) := hco
    simp only [PhysicsManager.exitEventFor, if_pos hco2] at he
    split at he
    · exact absurd he (List.not_mem_nil e)
    · split at he
      · split at he
        · rcases List.mem_singleton.mp he with rfl
          trivial
        · exact absurd he (List.not_mem_nil e)
      · exact absurd he (List.not_mem_nil e)

/-- C8 witness: a concrete trigger manifold in the empty simulation. -/
theorem trigger_pair_skips_solvers_witness :
    PhysicsManager.positionSolverPair defaultConsts emptySim triggerInfoFixture = emptySim ∧
    PhysicsManager.velocitySolverPair defaultConsts emptySim triggerInfoFixture = emptySim ∧
    (∀ e ∈ PhysicsManager.pairEvents emptySim triggerInfoFixture, e.isTriggerEvent) ∧
    (∀ col other : Collider, col.isTrigger = true ∨ other.isTrigger = true →
      ∀ e ∈ PhysicsManager.exitEventFor col other, e.isTriggerEvent) :=
  trigger_pair_skips_solvers defaultConsts emptySim triggerInfoFixture (Or.inl rfl)

/-! ## C9: the velocity-iterations constant is dead configuration -/

/-- The velocity pass reaches resolve at most once per detected pair. -/
theorem velocityResolveCalls_le (c : PhysicsConsts) :
    ∀ (pairs : List ((ℕ × ℕ) × CollisionInfo)) (s : SimState),
      PhysicsManager.velocityResolveCalls c pairs s ≤ pairs.length := by
  intro pairs
  induction pairs with
  | nil => intro s; simp [PhysicsManager.velocityResolveCalls]
  | cons kv rest ih =>
    intro s
    rw [PhysicsManager.velocityResolveCalls]
    have hle := ih (PhysicsManager.velocitySolverPair c s kv.2)
    simp only [List.length_cons]
    split <;> omega

/-- C9: a physics sub-step never reads VELOCITY_ITERATIONS — two runs
under constants that agree on every other field produce identical manager
states and event traces — and the impulse+friction pass reaches resolve
at most once per detected pair (exactly the single pass over the pair
list), likewise independent of that constant. -/
theorem velocity_iterations_unused (c c2 : PhysicsConsts) (dt : ℝ)
    (m : PhysicsManager.ManagerState)
    (hg : c.gravity = c2.gravity) (hft : c.fixedTimestep = c2.fixedTimestep)
    (hmv : c.maxVelocity = c2.maxVelocity) (hst : c.sleepThreshold = c2.sleepThreshold)
    (hsl : c.sleepTime = c2.sleepTime) (hcp : c.correctionPercent = c2.correctionPercent)
    (hcs : c.correctionSlop = c2.correctionSlop)
    (hpi : c.positionIterations = c2.positionIterations) :
    PhysicsManager.fixedUpdate c dt m = PhysicsManager.fixedUpdate c2 dt m ∧
    (∀ pairs s, PhysicsManager.velocityResolveCalls c pairs s =
      PhysicsManager.velocityResolveCalls c2 pairs s) ∧
    (∀ pairs s, PhysicsManager.velocityResolveCalls c pairs s ≤ pairs.length) := by
  obtain ⟨g1, ft1, mv1, st1, sl1, cp1, cs1, pi1, vi1⟩ := c
  obtain ⟨g2, ft2, mv2, st2, sl2, cp2, cs2, pi2, vi2⟩ := c2
  simp only at hg hft hmv hst hsl hcp hcs hpi
  subst hg
  subst hft
  subst hmv
  subst hst
  subst hsl
  subst hcp
  subst hcs
  subst hpi
  refine ⟨rfl, ?_, velocityResolveCalls_le _⟩
  intro pairs
  induction pairs with
  | nil => intro s; rfl
  | cons kv rest ih =>
    intro s
    rw [PhysicsManager.velocityResolveCalls, PhysicsManager.velocityResolveCalls]
    have hpair : PhysicsManager.velocitySolverPair
        ⟨g1, ft1, mv1, st1, sl1, cp1, cs1, pi1, vi1⟩ s kv.2 =
        PhysicsManager.velocitySolverPair
        ⟨g1, ft1, mv1, st1, sl1, cp1, cs1, pi1, vi2⟩ s kv.2 := rfl
    rw [hpair, ih]

/-- C9 witness: the default constants against the same constants with a
different velocity-iteration count, on the fresh manager. -/
theorem velocity_iterations_unused_witness :
    PhysicsManager.fixedUpdate defaultConsts 0 initialManager =
      PhysicsManager.fixedUpdate altVelocityConsts 0 initialManager ∧
    (∀ pairs s, PhysicsManager.velocityResolveCalls defaultConsts pairs s =
      PhysicsManager.velocityResolveCalls altVelocityConsts pairs s) ∧
    (∀ pairs s, PhysicsManager.velocityResolveCalls defaultConsts pairs s ≤ pairs.length) :=
  velocity_iterations_unused defaultConsts altVelocityConsts 0 initialManager
    rfl rfl rfl rfl rfl rfl rfl rfl

/-! ## C10: the manager's mutable gravity property is never read by the
step pipeline -/

/-- One sub-step depends only on the non-gravity part of the manager
state. -/
theorem fixedUpdate_core_congr (c : PhysicsConsts) (dt : ℝ)
    (m1 m2 : PhysicsManager.ManagerState)
    (h : m1.core = m2.core) :
    (PhysicsManager.fixedUpdate c dt m1).1.core =
      (PhysicsManager.fixedUpdate c dt m2).1.core ∧
    (PhysicsManager.fixedUpdate c dt m1).2 = (PhysicsManager.fixedUpdate c dt m2).2 := by
  obtain ⟨s1, g1, ft1, a1, p1⟩ := m1
  obtain ⟨s2, g2, ft2, a2, p2⟩ := m2
  simp only [PhysicsManager.ManagerState.core, Prod.mk.injEq] at h
  obtain ⟨hs, hft, ha, hp⟩ := h
  subst hs
  subst hft
  subst ha
  subst hp
  exact ⟨rfl, rfl⟩

/-- The sub-step loop depends only on the non-gravity part of the
manager state. -/
theorem runSubsteps_core_congr (c : PhysicsConsts) :
    ∀ (n : ℕ) (m1 m2 : PhysicsManager.ManagerState), m1.core = m2.core →
      (PhysicsManager.runSubsteps c n m1).1.core =
        (PhysicsManager.runSubsteps c n m2).1.core ∧
      (PhysicsManager.runSubsteps c n m1).2 = (PhysicsManager.runSubsteps c n m2).2 := by
  intro n
  induction n with
  | zero => exact fun m1 m2 h => ⟨h, rfl⟩
  | succ k ih =>
    intro m1 m2 h
    rw [PhysicsManager.runSubsteps, PhysicsManager.runSubsteps]
    have hft : m1.fixedTimestep = m2.fixedTimestep := by
      obtain ⟨s1, g1, ft1, a1, p1⟩ := m1
      obtain ⟨s2, g2, ft2, a2, p2⟩ := m2
      simp only [PhysicsManager.ManagerState.core, Prod.mk.injEq] at h
      exact h.2.1
    have hstep := fixedUpdate_core_congr c m1.fixedTimestep m1 m2 h
    rw [hft] at hstep
    have hrest := ih (PhysicsManager.fixedUpdate c m2.fixedTimestep m1).1
      (PhysicsManager.fixedUpdate c m2.fixedTimestep m2).1 hstep.1
    rw [hft]
    exact ⟨hrest.1, by rw [hstep.2, hrest.2]⟩

/-- One update(dt) call depends only on the non-gravity part of the
manager state. -/
theorem update_core_congr (c : PhysicsConsts) (dt : ℝ)
    (m1 m2 : PhysicsManager.ManagerState) (h : m1.core = m2.core) :
    (PhysicsManager.update c dt m1).1.core = (PhysicsManager.update c dt m2).1.core := by
  obtain ⟨s1, g1, ft1, a1, p1⟩ := m1
  obtain ⟨s2, g2, ft2, a2, p2⟩ := m2
  simp only [PhysicsManager.ManagerState.core, Prod.mk.injEq] at h
  obtain ⟨hs, hft, ha, hp⟩ := h
  subst hs
  subst hft
  subst ha
  subst hp
  simp only [PhysicsManager.update]
  have hinner := runSubsteps_core_congr c
    ((⌊(if a1 + dt > ft1 * 5 then ft1 * 5 else a1 + dt) / ft1⌋).toNat)
    ⟨s1, g1, ft1, if a1 + dt > ft1 * 5 then ft1 * 5 else a1 + dt, p1⟩
    ⟨s1, g2, ft1, if a1 + dt > ft1 * 5 then ft1 * 5 else a1 + dt, p1⟩
    rfl
  simp only [PhysicsManager.ManagerState.core, Prod.mk.injEq] at hinner ⊢
  exact ⟨hinner.1.1, hinner.1.2.1, trivial, hinner.1.2.2.2⟩

/-- C10: body integration never reads the manager's mutable gravity
property (it applies the global PhysicsConstants gravity): two runs of
any frame sequence that differ only in the value assigned to the gravity
property produce identical simulation states — identical bodies, hence
identical velocities, and identical transforms, hence identical
positions. -/
theorem gravity_property_never_read (c : PhysicsConsts) (dts : List ℝ)
    (m : PhysicsManager.ManagerState) (g : Vector2) :
    (PhysicsManager.applyUpdates c dts (PhysicsManager.setGravity m g)).sim =
      (PhysicsManager.applyUpdates c dts m).sim ∧
    (PhysicsManager.applyUpdates c dts (PhysicsManager.setGravity m g)).sim.bodies =
      (PhysicsManager.applyUpdates c dts m).sim.bodies ∧
    (PhysicsManager.applyUpdates c dts (PhysicsManager.setGravity m g)).sim.transforms =
      (PhysicsManager.applyUpdates c dts m).sim.transforms := by
  have main : ∀ (ds : List ℝ) (m1 m2 : PhysicsManager.ManagerState), m1.core = m2.core →
      (PhysicsManager.applyUpdates c ds m1).core = (PhysicsManager.applyUpdates c ds m2).core := by
    intro ds
    induction ds with
    | nil => exact fun m1 m2 h => h
    | cons dt rest ih =>
      intro m1 m2 h
      exact ih (PhysicsManager.update c dt m1).1 (PhysicsManager.update c dt m2).1
        (update_core_congr c dt m1 m2 h)
  have hcore0 : (PhysicsManager.setGravity m g).core = m.core := by
    cases m
    rfl
  have hfin := main dts (PhysicsManager.setGravity m g) m hcore0
  have hsim : (PhysicsManager.applyUpdates c dts (PhysicsManager.setGravity m g)).sim =
      (PhysicsManager.applyUpdates c dts m).sim :=
    congrArg Prod.fst hfin
  exact ⟨hsim, by rw [hsim], by rw [hsim]⟩

end

end Lite2D
